import Mathlib

/-!
Verification of the audioconvert element of gst-plugins-base
(src/gst/audioconvert/gstaudioconvert.c) against its natural-language
specification.

The embedding models GStreamer capability structures (`GstStructure`) as
named association lists from field names to values.  The field values this
element builds and consumes are fixed integers, fixed booleans, flat lists
of integers/booleans, and closed integer ranges; the embedding mirrors
exactly that value language.

External primitives (GStreamer core / gst-libs functions whose sources are
not part of this repository's audioconvert sources) are modelled from the
specification and are marked `Modelled from the spec:` in their doc
comments.
-/

/-- A scalar capability value: a fixed integer or fixed boolean.  The lists
built by audioconvert (`endianness`, `signed`, `width`) only ever contain
scalars, so list elements are scalars in the embedding. -/
inductive GScalar where
  | gint (n : Int)
  | gbool (b : Bool)
deriving DecidableEq, Repr

/-- A capability field value: fixed int, fixed boolean, a list of scalar
alternatives (GST_TYPE_LIST), or a closed integer range
(GST_TYPE_INT_RANGE). -/
inductive GValue where
  | vint (n : Int)
  | vbool (b : Bool)
  | vlist (l : List GScalar)
  | vintRange (lo hi : Int)
deriving DecidableEq, Repr

/-- The set of scalar values a capability field value admits, as a decidable
membership test. -/
def gvMem (v : GValue) (a : GScalar) : Bool :=
  match v, a with
  | .vint n, .gint m => n == m
  | .vbool b, .gbool c => b == c
  | .vlist l, a => l.contains a
  | .vintRange lo hi, .gint m => decide (lo ≤ m) && decide (m ≤ hi)
  | _, _ => false

/-- The capability field names this element reads or writes
(.width, .depth, .rate, .channels, .endianness, .signed in the C
source), as an enumeration so that field lookup is a single constructor
comparison. -/
inductive FieldId where
  | width
  | depth
  | rate
  | channels
  | endianness
  | signed
deriving DecidableEq, Repr

/-- A GstStructure: a name plus fields.  Fields behave as a map from field
name to value; `setField` replaces any previous binding. -/
structure GstStructure where
  name : String
  fields : List (FieldId × GValue)
deriving DecidableEq, Repr

/-- First-match lookup in the field list (gst_structure_get_value). -/
def lookupField : List (FieldId × GValue) → FieldId → Option GValue
  | [], _ => none
  | (g, v) :: rest, f => if g = f then some v else lookupField rest f

def getValue (s : GstStructure) (f : FieldId) : Option GValue :=
  lookupField s.fields f

/-- gst_structure_has_field. -/
def hasField (s : GstStructure) (f : FieldId) : Bool :=
  (getValue s f).isSome

/-- Drop every binding of field `f`. -/
def eraseField : List (FieldId × GValue) → FieldId → List (FieldId × GValue)
  | [], _ => []
  | p :: rest, f => if p.1 = f then eraseField rest f else p :: eraseField rest f

/-- gst_structure_set on one field: replace any existing binding. -/
def setField : GstStructure → FieldId → GValue → GstStructure
  | ⟨n, fields⟩, f, v => ⟨n, (f, v) :: eraseField fields f⟩

/-- gst_structure_remove_field. -/
def removeField : GstStructure → FieldId → GstStructure
  | ⟨n, fields⟩, f => ⟨n, eraseField fields f⟩

/-- gst_structure_get_int: succeeds only when the field holds a fixed int. -/
def getInt (s : GstStructure) (f : FieldId) : Option Int :=
  match getValue s f with
  | some (.vint n) => some n
  | _ => none

/-- gst_structure_get_boolean: succeeds only when the field holds a fixed
boolean. -/
def getBool (s : GstStructure) (f : FieldId) : Option Bool :=
  match getValue s f with
  | some (.vbool b) => some b
  | _ => none

/-- gst_structure_set_name. -/
def setName (s : GstStructure) (n : String) : GstStructure :=
  ⟨n, s.fields⟩

/-- A value is fixed when it is a single int or boolean (lists and ranges
are not fixed); gst_caps_is_fixed over one structure. -/
def valueIsFixed : GValue → Bool
  | .vint _ => true
  | .vbool _ => true
  | _ => false

def structureIsFixed (s : GstStructure) : Bool :=
  s.fields.all fun p => valueIsFixed p.2

/- ### Constants (glib byte-order macros; build is little-endian) -/

def G_LITTLE_ENDIAN : Int := 1234

def G_BIG_ENDIAN : Int := 4321

def G_BYTE_ORDER : Int := G_LITTLE_ENDIAN

def capsIntName : String := "audio/x-raw-int"

def capsFloatName : String := "audio/x-raw-float"

/- ### transform_caps helpers (gstaudioconvert.c) -/

/-- The integers min, min+8, min+16, ... not exceeding max (the loop body of
set_structure_widths). -/
def widthsUpTo (mn mx : Int) : List Int :=
  if mn > mx then []
  else (List.range ((mx - mn).toNat / 8 + 1)).map fun i => mn + 8 * i

/-- set_structure_widths: a single width when min = max, else the list of
multiples-of-8 steps from min to max.  (Both branches of the C function set
the same field, so the branch is taken inside the value.) -/
def set_structure_widths (s : GstStructure) (mn mx : Int) : GstStructure :=
  setField s .width
    (if mn = mx then .vint mn else .vlist ((widthsUpTo mn mx).map .gint))

/-- set_structure_widths_32_and_64. -/
def set_structure_widths_32_and_64 (s : GstStructure) : GstStructure :=
  setField s .width (.vlist [.gint 32, .gint 64])

def endiannessBothValue : GValue :=
  .vlist [.gint G_LITTLE_ENDIAN, .gint G_BIG_ENDIAN]

def signedBothValue : GValue :=
  .vlist [.gbool true, .gbool false]

/-- make_lossless_changes: for float remove depth/signed, offer widths
32/64 and native endianness; for int offer both endiannesses and both
signedness values. -/
def make_lossless_changes (s : GstStructure) (isfloat : Bool) : GstStructure :=
  if isfloat then
    setField
      (set_structure_widths_32_and_64 (removeField (removeField s .depth) .signed))
      .endianness (.vint G_BYTE_ORDER)
  else
    setField (setField s .endianness endiannessBothValue) .signed signedBothValue

/-- append_with_other_format: append a copy of s renamed to the opposite
family, with that family's lossless changes applied. -/
def append_with_other_format (caps : List GstStructure) (s : GstStructure)
    (isfloat : Bool) : List GstStructure :=
  if isfloat then
    caps ++ [make_lossless_changes (setName s capsIntName) false]
  else
    caps ++ [make_lossless_changes (setName s capsFloatName) true]

def fields_used : List FieldId :=
  [.width, .depth, .rate, .channels, .endianness, .signed]

/-- The structure transform_caps starts from: same name, only the fields in
fields_used copied over (when present). -/
def filteredStructure (structure' : GstStructure) : GstStructure :=
  fields_used.foldl
    (fun acc f =>
      match getValue structure' f with
      | some v => setField acc f v
      | none => acc)
    ⟨structure'.name, []⟩

/-- The width/depth widening of transform_caps step 3 (lines 499-509):
widths up to 32 and depth up to 32, applied only when the original
structure carries fixed values; float inputs skip it. -/
def widen_width_depth (structure' s : GstStructure) (isfloat : Bool) :
    GstStructure :=
  if isfloat then s
  else
    let s :=
      match getInt structure' .width with
      | some width => set_structure_widths s width 32
      | none => s
    match getInt structure' .depth with
    | some depth =>
        setField s .depth
          (if depth = 32 then .vint 32 else .vintRange depth 32)
    | none => s

/-- The channel widening of transform_caps step 3 (lines 511-516):
channels up to 8 when the original structure has a fixed channel count. -/
def widen_channels (structure' s : GstStructure) : GstStructure :=
  match getInt structure' .channels with
  | some channels =>
      setField s .channels
        (if channels = 8 then .vint 8 else .vintRange channels 8)
  | none => s

/-- For integer inputs without a depth field but with a fixed width, depth
defaults to the width (lines 478-484). -/
def default_depth (s : GstStructure) (isfloat : Bool) : GstStructure :=
  if isfloat then s
  else
    match getValue s .depth, getInt s .width with
    | none, some width => setField s .depth (.vint width)
    | _, _ => s

/-- transform_caps steps 1-2 plus the widening step: returns the first four
emitted templates together with the working structure after the
width/depth/channels widening (the value of `s` after line 516 of
gstaudioconvert.c). -/
def transform_caps_head (structure' : GstStructure) (isfloat : Bool) :
    List GstStructure × GstStructure :=
  let s := filteredStructure structure'
  let s := default_depth s isfloat
  let s := make_lossless_changes s isfloat
  let ret := [s]
  let ret := append_with_other_format ret s isfloat
  let s := widen_width_depth structure' s isfloat
  let s := widen_channels structure' s
  let ret := ret ++ [s]
  let ret := append_with_other_format ret s isfloat
  (ret, s)

/-- The depth-reduction step of transform_caps (lines 522-544): when the
fixed side's width is absent or above 16, offer widths 16-32 with depth
16-32; for a float input this is emitted through append_with_other_format
as an integer structure, otherwise the (reassigned) working structure is
emitted directly.  Returns the emitted templates and the working structure
for the following steps. -/
def reduce_depth_step (structure' : GstStructure) (s : GstStructure)
    (isfloat : Bool) : List GstStructure × GstStructure :=
  if (match getInt structure' .width with
      | none => true
      | some width => width > 16) then
    if isfloat then
      let s2 := setField (set_structure_widths s 16 32) .depth (.vintRange 16 32)
      (append_with_other_format [] s2 true, s)
    else
      let s := setField (set_structure_widths s 16 32) .depth (.vintRange 16 32)
      ([s], s)
  else ([], s)

/-- transform_caps steps after depth reduction: channel narrowing to [1,8]
and the full-range fallback. -/
def transform_caps_tail (s : GstStructure) (isfloat : Bool) :
    List GstStructure :=
  let s := setField s .channels (.vintRange 1 8)
  let ret := [s]
  let ret := append_with_other_format ret s isfloat
  let s := setField (set_structure_widths s 8 32) .depth (.vintRange 1 32)
  if isfloat then append_with_other_format ret s true
  else ret ++ [s]

/-- gst_audio_convert_transform_caps on the (single) input structure:
the ordered list of offered templates. -/
def gst_audio_convert_transform_caps (structure' : GstStructure) :
    List GstStructure :=
  let isfloat := structure'.name == capsFloatName
  let hd := transform_caps_head structure' isfloat
  let rd := reduce_depth_step structure' hd.2 isfloat
  hd.1 ++ rd.1 ++ transform_caps_tail rd.2 isfloat

/- ### Canonical fixed capability structures -/

def emptyCaps : GstStructure := ⟨"", []⟩

/-- A fully fixed integer-audio capability structure (all fields single
values), parameterised over the field values. -/
def mkFixedIntCaps (w d r c e : Int) (sg : Bool) : GstStructure :=
  ⟨capsIntName, [(.width, .vint w), (.depth, .vint d), (.rate, .vint r),
    (.channels, .vint c), (.endianness, .vint e), (.signed, .vbool sg)]⟩

/-- A fully fixed float-audio capability structure. -/
def mkFixedFloatCaps (w r c : Int) : GstStructure :=
  ⟨capsFloatName, [(.width, .vint w), (.rate, .vint r),
    (.channels, .vint c), (.endianness, .vint G_BYTE_ORDER)]⟩

/- ### Value-set inclusion between templates -/

/-- The scalar set of `a` is included in the scalar set of `b`. -/
def scalarSubset (a b : GValue) : Prop :=
  ∀ x : GScalar, gvMem a x = true → gvMem b x = true

/-- One template field is at least as loose in `b` as in `a`: an absent
field is unconstrained, so a field constrained in `b` but absent in `a`
is a narrowing. -/
def optionLooser : Option GValue → Option GValue → Prop
  | none, none => True
  | none, some _ => False
  | some _, none => True
  | some va, some vb => scalarSubset va vb

/-- Template `b` admits every field value template `a` admits, field by
field over the fields transform_caps manipulates (the formalisation of
"the value sets/ranges of `b` are a superset of those of `a`"). -/
def rangesLooser (a b : GstStructure) : Prop :=
  ∀ f ∈ fields_used, optionLooser (getValue a f) (getValue b f)

/-- `rangesLooser` plus agreement of the media type. -/
def structLooser (a b : GstStructure) : Prop :=
  a.name = b.name ∧ rangesLooser a b

/-- The last element of a template sequence. -/
def lastTemplate (l : List GstStructure) : GstStructure :=
  l.getD (l.length - 1) emptyCaps

/-- Monotonic loosening within one encoding family: position `k` holds the
last template of that family in `ret`, and it is at least as loose as every
template of the family. -/
def familyMonotone (ret : List GstStructure) (familyName : String)
    (k : Nat) : Prop :=
  (ret.getD k emptyCaps).name = familyName ∧
  (∀ i, k < i → (ret.getD i emptyCaps).name ≠ familyName) ∧
  ∀ i, (ret.getD i emptyCaps).name = familyName →
    structLooser (ret.getD i emptyCaps) (ret.getD k emptyCaps)

/- ### Fixation (gst_audio_convert_fixate_caps, lines 575-632) -/

/-- `n` is strictly preferred over `b` as the fixation of target `t`:
closer, or equally close and smaller. -/
def closerInt (t n b : Int) : Bool :=
  decide ((t - n).natAbs < (t - b).natAbs) ||
    (decide ((t - n).natAbs = (t - b).natAbs) && decide (n < b))

/-- One step of the nearest-scan: adopt `n` when it is strictly preferred
over the best so far. -/
def nearStep (t : Int) (acc : Option Int) (a : GScalar) : Option Int :=
  match a, acc with
  | .gint n, none => some n
  | .gint n, some b => if closerInt t n b then some n else some b
  | _, acc => acc

/-- The preferred integer among the list entries for target `t`. -/
def nearestIntInList (l : List GScalar) (t : Int) : Option Int :=
  l.foldl (nearStep t) none

/-- Modelled from the spec: gst_structure_fixate_field_nearest_int is
GStreamer-core code, not part of this repository's audioconvert sources.
Per section 4.3 it resolves a still-ranged field to the single value
numerically closest to the target, ties broken toward the smaller value;
an already fixed field is left unchanged. -/
def fixateIntValue (v : GValue) (t : Int) : GValue :=
  match v with
  | .vint n => .vint n
  | .vintRange lo hi => .vint (min hi (max lo t))
  | .vlist l =>
      match nearestIntInList l t with
      | some b => .vint b
      | none => .vlist l
  | .vbool b => .vbool b

/-- Modelled from the spec: gst_structure_fixate_field_boolean
(GStreamer core): picks the target when offered, else the other value. -/
def fixateBoolValue (v : GValue) (t : Bool) : GValue :=
  match v with
  | .vbool b => .vbool b
  | .vlist l =>
      if l.contains (.gbool t) then .vbool t
      else if l.contains (.gbool (!t)) then .vbool (!t)
      else .vlist l
  | v => v

/-- Fixate one field of `s` toward integer target `t` when present. -/
def fixateFieldNearest (s : GstStructure) (f : FieldId) (t : Int) :
    GstStructure :=
  match getValue s f with
  | some v => setField s f (fixateIntValue v t)
  | none => s

/-- Fixate one boolean field of `s` toward target `t` when present. -/
def fixateFieldBool (s : GstStructure) (f : FieldId) (t : Bool) :
    GstStructure :=
  match getValue s f with
  | some v => setField s f (fixateBoolValue v t)
  | none => s

/-- gst_audio_convert_fixate_caps: fixate the fields of `outs` toward the
values of the fixed structure `ins`, in the order channels, rate,
endianness, width, depth, signed; when `ins` has no depth, depth is
fixated toward `ins`'s width.  (When `ins` lacks both depth and width the
C code reads an uninitialized variable; that case is modelled as leaving
depth alone, and the theorems assume `ins` carries a width.) -/
def fixStepInt (ins outs : GstStructure) (f : FieldId) : GstStructure :=
  match getInt ins f with
  | some t => fixateFieldNearest outs f t
  | none => outs

/-- The depth step: fixate depth toward the fixed side's depth, or toward
its width when it has no depth. -/
def fixStepDepth (ins outs : GstStructure) : GstStructure :=
  match getInt ins .depth with
  | some depth => fixateFieldNearest outs .depth depth
  | none =>
      match getInt ins .width with
      | some width => fixateFieldNearest outs .depth width
      | none => outs

/-- The signed step: fixate the boolean signed field toward the fixed
side's signedness. -/
def fixStepSigned (ins outs : GstStructure) : GstStructure :=
  match getBool ins .signed with
  | some sg => fixateFieldBool outs .signed sg
  | none => outs

def gst_audio_convert_fixate_caps (ins outs : GstStructure) : GstStructure :=
  let outs := fixStepInt ins outs .channels
  let outs := fixStepInt ins outs .rate
  let outs := fixStepInt ins outs .endianness
  let outs := fixStepInt ins outs .width
  let outs := fixStepDepth ins outs
  fixStepSigned ins outs

/-- A range value is well formed (non-empty).  Lists and fixed values
need no side condition for the fixation theorems. -/
def rangeValid : GValue → Bool
  | .vintRange lo hi => decide (lo ≤ hi)
  | _ => true

/-- `b` is at least as close to the target `t` as `n`, with ties broken
toward the smaller value. -/
def nearestPick (t b n : Int) : Prop :=
  (t - b).natAbs < (t - n).natAbs ∨
    ((t - b).natAbs = (t - n).natAbs ∧ b ≤ n)

/-- The full statement of claim C3 for a fixed side `ins` carrying width
`w`: every field of `outs` that `ins` fixes is resolved, in the order
channels, rate, endianness, width, depth, signed, to the fixation of its
previous value toward the fixed side's value; depth falls back to the
fixed side's width; and integer fixation picks the admitted value
numerically closest to the target, ties toward the smaller value. -/
def C3Statement (ins outs : GstStructure) (w : Int) : Prop :=
  (∀ t v, getInt ins .channels = some t → getValue outs .channels = some v →
    getValue (gst_audio_convert_fixate_caps ins outs) .channels =
      some (fixateIntValue v t)) ∧
  (∀ t v, getInt ins .rate = some t → getValue outs .rate = some v →
    getValue (gst_audio_convert_fixate_caps ins outs) .rate =
      some (fixateIntValue v t)) ∧
  (∀ t v, getInt ins .endianness = some t → getValue outs .endianness = some v →
    getValue (gst_audio_convert_fixate_caps ins outs) .endianness =
      some (fixateIntValue v t)) ∧
  (∀ v, getValue outs .width = some v →
    getValue (gst_audio_convert_fixate_caps ins outs) .width =
      some (fixateIntValue v w)) ∧
  (∀ t v, getInt ins .depth = some t → getValue outs .depth = some v →
    getValue (gst_audio_convert_fixate_caps ins outs) .depth =
      some (fixateIntValue v t)) ∧
  (∀ v, getInt ins .depth = none → getValue outs .depth = some v →
    getValue (gst_audio_convert_fixate_caps ins outs) .depth =
      some (fixateIntValue v w)) ∧
  (∀ t v, getBool ins .signed = some t → getValue outs .signed = some v →
    getValue (gst_audio_convert_fixate_caps ins outs) .signed =
      some (fixateBoolValue v t)) ∧
  (∀ v t b, rangeValid v = true → fixateIntValue v t = .vint b →
    gvMem v (.gint b) = true ∧
    ∀ n, gvMem v (.gint n) = true → nearestPick t b n)

/- ### Capability parsing (gst_audio_convert_parse_caps, lines 243-304) -/

/-- The parsed format descriptor (AudioConvertFmt of gstaudioconvert.h). -/
structure AudioConvertFmt where
  is_int : Bool
  endianness : Int
  sign : Bool
  width : Int
  depth : Int
  rate : Int
  channels : Int
  pos : List Int
  unit_size : Int
deriving DecidableEq, Repr

/-- Modelled from the spec: the canonical default channel layout for a
given channel count (section 4.1: "derived from channel count when absent,
using a canonical default layout"): distinct recognized positions, one per
channel. -/
def defaultPositions (channels : Int) : List Int :=
  (List.range channels.toNat).map Int.ofNat

/-- Modelled from the spec: gst_audio_get_channel_positions (gst-libs, not
part of these sources).  The caps structures of this embedding carry no
explicit channel-position list, so the spec's derived-default path
applies: positions are derived from the channel count, which must be
positive. -/
def gst_audio_get_channel_positions (s : GstStructure) :
    Option (List Int) :=
  match getInt s .channels with
  | some channels =>
      if 1 ≤ channels then some (defaultPositions channels) else none
  | none => none

/-- gst_audio_convert_parse_caps: convert a fixed caps structure into an
AudioConvertFmt, failing (None, C: FALSE) when caps are not fixed, a
required field is missing, or depth exceeds width. -/
def gst_audio_convert_parse_caps (s : GstStructure) :
    Option AudioConvertFmt :=
  if structureIsFixed s then
    match getInt s .channels with
    | none => none
    | some channels =>
      match gst_audio_get_channel_positions s with
      | none => none
      | some pos =>
        match getInt s .width with
        | none => none
        | some width =>
          match getInt s .rate with
          | none => none
          | some rate =>
            if s.name == capsIntName then
              match getBool s .signed with
              | none => none
              | some sign =>
                match getInt s .depth with
                | none => none
                | some depth =>
                  match (if width ≠ 8 then getInt s .endianness
                         else some G_BYTE_ORDER) with
                  | none => none
                  | some endianness =>
                    if depth > width then none
                    else some ⟨true, endianness, sign, width, depth, rate,
                      channels, pos, width * channels / 8⟩
            else
              some ⟨false, G_BYTE_ORDER, false, width, 0, rate, channels,
                pos, width * channels / 8⟩
  else none

/-- gst_audio_convert_get_unit_size: parse the caps and report the stored
unit size. -/
def gst_audio_convert_get_unit_size (caps : GstStructure) : Option Int :=
  match gst_audio_convert_parse_caps caps with
  | some fmt => some fmt.unit_size
  | none => none

/-- A caps structure with an optional value per field, for quantifying over
presence and absence of each field. -/
def mkCapsOpt (isInt : Bool) (w d r c e : Option Int) (sg : Option Bool) :
    GstStructure :=
  ⟨if isInt then capsIntName else capsFloatName,
   (match w with | some x => [(FieldId.width, GValue.vint x)] | none => []) ++
   (match d with | some x => [(FieldId.depth, GValue.vint x)] | none => []) ++
   (match r with | some x => [(FieldId.rate, GValue.vint x)] | none => []) ++
   (match c with | some x => [(FieldId.channels, GValue.vint x)] | none => []) ++
   (match e with | some x => [(FieldId.endianness, GValue.vint x)] | none => []) ++
   (match sg with | some x => [(FieldId.signed, GValue.vbool x)] | none => [])⟩

/- ### The per-buffer transform stage (gst_audio_convert_transform,
lines 668-731) -/

/-- The conversion context: the parsed input and output formats
(AudioConvertCtx; the derived plan does not enter the transform-stage
claims). -/
structure AudioConvertCtx where
  inFmt : AudioConvertFmt
  outFmt : AudioConvertFmt

/-- Modelled from the spec: audio_convert_get_sizes (audioconvert.c is not
among these sources).  Section 4.4: inputBytes = sampleCount *
inputFormat.unitSize and outputBytes = sampleCount * outputFormat.unitSize;
the C function succeeds for a non-null context. -/
def audio_convert_get_sizes (ctx : AudioConvertCtx) (samples : Int) :
    Option (Int × Int) :=
  some (samples * ctx.inFmt.unit_size, samples * ctx.outFmt.unit_size)

/-- Modelled from the spec: audio_convert_convert (audioconvert.c is not
among these sources).  Only its success enters the transform-stage
control-flow claims; section 4.4 specifies it succeeds for a prepared
context. -/
def audio_convert_convert (ctx : AudioConvertCtx) (samples : Int) : Bool :=
  true

/-- A buffer as the transform stage sees it: GST_BUFFER_SIZE. -/
structure GstBuffer where
  size : Int
deriving DecidableEq, Repr

inductive GstFlowReturn where
  | ok
  | error
deriving DecidableEq, Repr

/-- The observable outcome of one transform call: flow return, the
destination buffer size after the call, the computed sample count, and
whether the sample converter ran. -/
structure TransformResult where
  ret : GstFlowReturn
  outSize : Int
  samples : Int
  convertCalled : Bool
deriving DecidableEq, Repr

/-- gst_audio_convert_transform: samples = floor(input size / input unit
size); query sizes; empty conversions succeed immediately; size checks on
both buffers; convert; set the destination buffer size. -/
def gst_audio_convert_transform (ctx : AudioConvertCtx)
    (inbuf outbuf : GstBuffer) : TransformResult :=
  let samples := inbuf.size / ctx.inFmt.unit_size
  match audio_convert_get_sizes ctx samples with
  | none => ⟨.error, outbuf.size, samples, false⟩
  | some (insize, outsize) =>
    if insize = 0 ∨ outsize = 0 then ⟨.ok, outbuf.size, samples, false⟩
    else if inbuf.size < insize then ⟨.error, outbuf.size, samples, false⟩
    else if outbuf.size < outsize then ⟨.error, outbuf.size, samples, false⟩
    else if audio_convert_convert ctx samples then
      ⟨.ok, outsize, samples, true⟩
    else ⟨.error, outbuf.size, samples, true⟩

/- ### Template shapes for the negotiation claims -/

/-- An INTEGER lossless-step template: same width/depth/rate/channels as
the fixed side, both endiannesses and both signedness values offered. -/
def isLosslessIntTemplate (t : GstStructure) (w d r c : Int) : Prop :=
  t.name = capsIntName ∧
  getValue t .width = some (.vint w) ∧
  getValue t .depth = some (.vint d) ∧
  getValue t .rate = some (.vint r) ∧
  getValue t .channels = some (.vint c) ∧
  getValue t .endianness = some endiannessBothValue ∧
  getValue t .signed = some signedBothValue

/-- A FLOAT-family template: widths 32/64, native endianness, no depth or
signed field, rate and channels as given. -/
def isLosslessFloatTemplate (t : GstStructure) (r c : Int) : Prop :=
  t.name = capsFloatName ∧
  getValue t .width = some (.vlist [.gint 32, .gint 64]) ∧
  getValue t .depth = none ∧
  getValue t .rate = some (.vint r) ∧
  getValue t .channels = some (.vint c) ∧
  getValue t .endianness = some (.vint G_BYTE_ORDER) ∧
  getValue t .signed = none

/-- The INTEGER template derived from a FLOAT one: widths 32/64 carried
over, no depth field, both endiannesses and signedness values offered. -/
def isIntOfFloatTemplate (t : GstStructure) (r c : Int) : Prop :=
  t.name = capsIntName ∧
  getValue t .width = some (.vlist [.gint 32, .gint 64]) ∧
  getValue t .depth = none ∧
  getValue t .rate = some (.vint r) ∧
  getValue t .channels = some (.vint c) ∧
  getValue t .endianness = some endiannessBothValue ∧
  getValue t .signed = some signedBothValue

/-- A concrete conversion context for witnesses: 16-bit stereo signed
little-endian integer input (unit size 4) to 32-bit stereo float output
(unit size 8). -/
def sampleCtx : AudioConvertCtx :=
  ⟨⟨true, 1234, true, 16, 16, 44100, 2, defaultPositions 2, 4⟩,
   ⟨false, 1234, false, 32, 0, 44100, 2, defaultPositions 2, 8⟩⟩

/- ### Structure lookup and subset lemmas -/

/- ### Basic lookup lemmas -/

theorem lookupField_eraseField_same (l : List (FieldId × GValue)) (f : FieldId) :
    lookupField (eraseField l f) f = none := by
  induction l with
  | nil => rfl
  | cons p rest ih =>
    by_cases hp : p.1 = f
    · simpa [eraseField, hp] using ih
    · simpa [eraseField, hp, lookupField] using ih

theorem lookupField_eraseField_ne (l : List (FieldId × GValue)) (f g : FieldId)
    (h : g ≠ f) : lookupField (eraseField l f) g = lookupField l g := by
  induction l with
  | nil => rfl
  | cons p rest ih =>
    by_cases hp : p.1 = f
    · have hg : p.1 ≠ g := fun hc => h (hc ▸ hp)
      simpa [eraseField, hp, lookupField, hg, Ne.symm h] using ih
    · by_cases hg : p.1 = g
      · simp [eraseField, hp, lookupField, hg, h]
      · simpa [eraseField, hp, lookupField, hg] using ih

theorem getValue_setField_same (s : GstStructure) (f : FieldId) (v : GValue) :
    getValue (setField s f v) f = some v := by
  simp [getValue, setField, lookupField]

theorem getValue_setField_ne (s : GstStructure) (f g : FieldId) (v : GValue)
    (h : g ≠ f) : getValue (setField s f v) g = getValue s g := by
  simp only [getValue, setField, lookupField, if_neg (Ne.symm h)]
  exact lookupField_eraseField_ne s.fields f g h

theorem getValue_removeField_same (s : GstStructure) (f : FieldId) :
    getValue (removeField s f) f = none := by
  simp only [getValue, removeField]
  exact lookupField_eraseField_same s.fields f

theorem getValue_removeField_ne (s : GstStructure) (f g : FieldId)
    (h : g ≠ f) : getValue (removeField s f) g = getValue s g := by
  simp only [getValue, removeField]
  exact lookupField_eraseField_ne s.fields f g h

theorem name_setField (s : GstStructure) (f : FieldId) (v : GValue) :
    (setField s f v).name = s.name := rfl

theorem name_removeField (s : GstStructure) (f : FieldId) :
    (removeField s f).name = s.name := rfl

theorem name_setName (s : GstStructure) (n : String) :
    (setName s n).name = n := rfl

theorem getValue_setName (s : GstStructure) (n : String) (f : FieldId) :
    getValue (setName s n) f = getValue s f := rfl


theorem scalarSubset_refl (a : GValue) : scalarSubset a a := fun _ h => h

theorem scalarSubset_vint (n : Int) (v : GValue) (h : gvMem v (.gint n) = true) :
    scalarSubset (.vint n) v := by
  intro x hx
  cases x with
  | gint m => simp [gvMem] at hx; subst hx; exact h
  | gbool b => simp [gvMem] at hx

theorem scalarSubset_vint_range (n lo hi : Int) (h1 : lo ≤ n) (h2 : n ≤ hi) :
    scalarSubset (.vint n) (.vintRange lo hi) := by
  apply scalarSubset_vint
  simp [gvMem]; omega

theorem scalarSubset_range_range (lo hi lo' hi' : Int) (h1 : lo' ≤ lo)
    (h2 : hi ≤ hi') : scalarSubset (.vintRange lo hi) (.vintRange lo' hi') := by
  intro x hx
  cases x with
  | gint m => simp [gvMem] at hx ⊢; omega
  | gbool b => simp [gvMem] at hx

theorem scalarSubset_vlist (l : List GScalar) (v : GValue)
    (h : ∀ a ∈ l, gvMem v a = true) : scalarSubset (.vlist l) v := by
  intro x hx
  simp [gvMem] at hx
  exact h x hx

/-- The step-3 depth widening (`depth` widened up to 32) is inside the
fallback depth range [1, 32]. -/
theorem scalarSubset_depth_widen (d : Int) (h1 : 1 ≤ d) (h2 : d ≤ 32) :
    scalarSubset (if d = 32 then GValue.vint 32 else GValue.vintRange d 32)
      (.vintRange 1 32) := by
  by_cases hd : d = 32
  · simpa [hd] using scalarSubset_vint_range 32 1 32 (by omega) (by omega)
  · simpa [hd] using scalarSubset_range_range d 32 1 32 (by omega) (by omega)

/-- The step-3 channel widening (`channels` widened up to 8) is inside the
fallback channel range [1, 8]. -/
theorem scalarSubset_chan_widen (c : Int) (h1 : 1 ≤ c) (h2 : c ≤ 8) :
    scalarSubset (if c = 8 then GValue.vint 8 else GValue.vintRange c 8)
      (.vintRange 1 8) := by
  by_cases hc : c = 8
  · simpa [hc] using scalarSubset_vint_range 8 1 8 (by omega) (by omega)
  · simpa [hc] using scalarSubset_range_range c 8 1 8 (by omega) (by omega)

set_option maxHeartbeats 1000000 in
theorem transform_int8_length (d r c e : Int) (sg : Bool) :
    (gst_audio_convert_transform_caps (mkFixedIntCaps 8 d r c e sg)).length = 7 := rfl

set_option maxHeartbeats 1000000 in
theorem transform_int8_elem0 (d r c e : Int) (sg : Bool) :
    (gst_audio_convert_transform_caps (mkFixedIntCaps 8 d r c e sg)).getD 0 emptyCaps =
      ⟨capsIntName,
      [(FieldId.signed, signedBothValue),
      (FieldId.endianness, endiannessBothValue),
      (FieldId.channels, GValue.vint c),
      (FieldId.rate, GValue.vint r),
      (FieldId.depth, GValue.vint d),
      (FieldId.width, GValue.vint 8)]⟩ := rfl

set_option maxHeartbeats 1000000 in
theorem transform_int8_elem1 (d r c e : Int) (sg : Bool) :
    (gst_audio_convert_transform_caps (mkFixedIntCaps 8 d r c e sg)).getD 1 emptyCaps =
      ⟨capsFloatName,
      [(FieldId.endianness, GValue.vint 1234),
      (FieldId.width, GValue.vlist [GScalar.gint 32, GScalar.gint 64]),
      (FieldId.channels, GValue.vint c),
      (FieldId.rate, GValue.vint r)]⟩ := rfl

set_option maxHeartbeats 1000000 in
theorem transform_int8_elem2 (d r c e : Int) (sg : Bool) :
    (gst_audio_convert_transform_caps (mkFixedIntCaps 8 d r c e sg)).getD 2 emptyCaps =
      ⟨capsIntName,
      [(FieldId.channels, (if c = 8 then GValue.vint 8 else GValue.vintRange c 8)),
      (FieldId.depth, (if d = 32 then GValue.vint 32 else GValue.vintRange d 32)),
      (FieldId.width, GValue.vlist [GScalar.gint 8, GScalar.gint 16, GScalar.gint 24, GScalar.gint 32]),
      (FieldId.signed, signedBothValue),
      (FieldId.endianness, endiannessBothValue),
      (FieldId.rate, GValue.vint r)]⟩ := rfl

set_option maxHeartbeats 1000000 in
theorem transform_int8_elem3 (d r c e : Int) (sg : Bool) :
    (gst_audio_convert_transform_caps (mkFixedIntCaps 8 d r c e sg)).getD 3 emptyCaps =
      ⟨capsFloatName,
      [(FieldId.endianness, GValue.vint 1234),
      (FieldId.width, GValue.vlist [GScalar.gint 32, GScalar.gint 64]),
      (FieldId.channels, (if c = 8 then GValue.vint 8 else GValue.vintRange c 8)),
      (FieldId.rate, GValue.vint r)]⟩ := rfl

set_option maxHeartbeats 1000000 in
theorem transform_int8_elem4 (d r c e : Int) (sg : Bool) :
    (gst_audio_convert_transform_caps (mkFixedIntCaps 8 d r c e sg)).getD 4 emptyCaps =
      ⟨capsIntName,
      [(FieldId.channels, GValue.vintRange 1 8),
      (FieldId.depth, (if d = 32 then GValue.vint 32 else GValue.vintRange d 32)),
      (FieldId.width, GValue.vlist [GScalar.gint 8, GScalar.gint 16, GScalar.gint 24, GScalar.gint 32]),
      (FieldId.signed, signedBothValue),
      (FieldId.endianness, endiannessBothValue),
      (FieldId.rate, GValue.vint r)]⟩ := rfl

set_option maxHeartbeats 1000000 in
theorem transform_int8_elem5 (d r c e : Int) (sg : Bool) :
    (gst_audio_convert_transform_caps (mkFixedIntCaps 8 d r c e sg)).getD 5 emptyCaps =
      ⟨capsFloatName,
      [(FieldId.endianness, GValue.vint 1234),
      (FieldId.width, GValue.vlist [GScalar.gint 32, GScalar.gint 64]),
      (FieldId.channels, GValue.vintRange 1 8),
      (FieldId.rate, GValue.vint r)]⟩ := rfl

set_option maxHeartbeats 1000000 in
theorem transform_int8_elem6 (d r c e : Int) (sg : Bool) :
    (gst_audio_convert_transform_caps (mkFixedIntCaps 8 d r c e sg)).getD 6 emptyCaps =
      ⟨capsIntName,
      [(FieldId.depth, GValue.vintRange 1 32),
      (FieldId.width, GValue.vlist [GScalar.gint 8, GScalar.gint 16, GScalar.gint 24, GScalar.gint 32]),
      (FieldId.channels, GValue.vintRange 1 8),
      (FieldId.signed, signedBothValue),
      (FieldId.endianness, endiannessBothValue),
      (FieldId.rate, GValue.vint r)]⟩ := rfl

set_option maxHeartbeats 1000000 in
theorem transform_int16_length (d r c e : Int) (sg : Bool) :
    (gst_audio_convert_transform_caps (mkFixedIntCaps 16 d r c e sg)).length = 7 := rfl

set_option maxHeartbeats 1000000 in
theorem transform_int16_elem0 (d r c e : Int) (sg : Bool) :
    (gst_audio_convert_transform_caps (mkFixedIntCaps 16 d r c e sg)).getD 0 emptyCaps =
      ⟨capsIntName,
      [(FieldId.signed, signedBothValue),
      (FieldId.endianness, endiannessBothValue),
      (FieldId.channels, GValue.vint c),
      (FieldId.rate, GValue.vint r),
      (FieldId.depth, GValue.vint d),
      (FieldId.width, GValue.vint 16)]⟩ := rfl

set_option maxHeartbeats 1000000 in
theorem transform_int16_elem1 (d r c e : Int) (sg : Bool) :
    (gst_audio_convert_transform_caps (mkFixedIntCaps 16 d r c e sg)).getD 1 emptyCaps =
      ⟨capsFloatName,
      [(FieldId.endianness, GValue.vint 1234),
      (FieldId.width, GValue.vlist [GScalar.gint 32, GScalar.gint 64]),
      (FieldId.channels, GValue.vint c),
      (FieldId.rate, GValue.vint r)]⟩ := rfl

set_option maxHeartbeats 1000000 in
theorem transform_int16_elem2 (d r c e : Int) (sg : Bool) :
    (gst_audio_convert_transform_caps (mkFixedIntCaps 16 d r c e sg)).getD 2 emptyCaps =
      ⟨capsIntName,
      [(FieldId.channels, (if c = 8 then GValue.vint 8 else GValue.vintRange c 8)),
      (FieldId.depth, (if d = 32 then GValue.vint 32 else GValue.vintRange d 32)),
      (FieldId.width, GValue.vlist [GScalar.gint 16, GScalar.gint 24, GScalar.gint 32]),
      (FieldId.signed, signedBothValue),
      (FieldId.endianness, endiannessBothValue),
      (FieldId.rate, GValue.vint r)]⟩ := rfl

set_option maxHeartbeats 1000000 in
theorem transform_int16_elem3 (d r c e : Int) (sg : Bool) :
    (gst_audio_convert_transform_caps (mkFixedIntCaps 16 d r c e sg)).getD 3 emptyCaps =
      ⟨capsFloatName,
      [(FieldId.endianness, GValue.vint 1234),
      (FieldId.width, GValue.vlist [GScalar.gint 32, GScalar.gint 64]),
      (FieldId.channels, (if c = 8 then GValue.vint 8 else GValue.vintRange c 8)),
      (FieldId.rate, GValue.vint r)]⟩ := rfl

set_option maxHeartbeats 1000000 in
theorem transform_int16_elem4 (d r c e : Int) (sg : Bool) :
    (gst_audio_convert_transform_caps (mkFixedIntCaps 16 d r c e sg)).getD 4 emptyCaps =
      ⟨capsIntName,
      [(FieldId.channels, GValue.vintRange 1 8),
      (FieldId.depth, (if d = 32 then GValue.vint 32 else GValue.vintRange d 32)),
      (FieldId.width, GValue.vlist [GScalar.gint 16, GScalar.gint 24, GScalar.gint 32]),
      (FieldId.signed, signedBothValue),
      (FieldId.endianness, endiannessBothValue),
      (FieldId.rate, GValue.vint r)]⟩ := rfl

set_option maxHeartbeats 1000000 in
theorem transform_int16_elem5 (d r c e : Int) (sg : Bool) :
    (gst_audio_convert_transform_caps (mkFixedIntCaps 16 d r c e sg)).getD 5 emptyCaps =
      ⟨capsFloatName,
      [(FieldId.endianness, GValue.vint 1234),
      (FieldId.width, GValue.vlist [GScalar.gint 32, GScalar.gint 64]),
      (FieldId.channels, GValue.vintRange 1 8),
      (FieldId.rate, GValue.vint r)]⟩ := rfl

set_option maxHeartbeats 1000000 in
theorem transform_int16_elem6 (d r c e : Int) (sg : Bool) :
    (gst_audio_convert_transform_caps (mkFixedIntCaps 16 d r c e sg)).getD 6 emptyCaps =
      ⟨capsIntName,
      [(FieldId.depth, GValue.vintRange 1 32),
      (FieldId.width, GValue.vlist [GScalar.gint 8, GScalar.gint 16, GScalar.gint 24, GScalar.gint 32]),
      (FieldId.channels, GValue.vintRange 1 8),
      (FieldId.signed, signedBothValue),
      (FieldId.endianness, endiannessBothValue),
      (FieldId.rate, GValue.vint r)]⟩ := rfl

set_option maxHeartbeats 1000000 in
theorem transform_int24_length (d r c e : Int) (sg : Bool) :
    (gst_audio_convert_transform_caps (mkFixedIntCaps 24 d r c e sg)).length = 8 := rfl

set_option maxHeartbeats 1000000 in
theorem transform_int24_elem0 (d r c e : Int) (sg : Bool) :
    (gst_audio_convert_transform_caps (mkFixedIntCaps 24 d r c e sg)).getD 0 emptyCaps =
      ⟨capsIntName,
      [(FieldId.signed, signedBothValue),
      (FieldId.endianness, endiannessBothValue),
      (FieldId.channels, GValue.vint c),
      (FieldId.rate, GValue.vint r),
      (FieldId.depth, GValue.vint d),
      (FieldId.width, GValue.vint 24)]⟩ := rfl

set_option maxHeartbeats 1000000 in
theorem transform_int24_elem1 (d r c e : Int) (sg : Bool) :
    (gst_audio_convert_transform_caps (mkFixedIntCaps 24 d r c e sg)).getD 1 emptyCaps =
      ⟨capsFloatName,
      [(FieldId.endianness, GValue.vint 1234),
      (FieldId.width, GValue.vlist [GScalar.gint 32, GScalar.gint 64]),
      (FieldId.channels, GValue.vint c),
      (FieldId.rate, GValue.vint r)]⟩ := rfl

set_option maxHeartbeats 1000000 in
theorem transform_int24_elem2 (d r c e : Int) (sg : Bool) :
    (gst_audio_convert_transform_caps (mkFixedIntCaps 24 d r c e sg)).getD 2 emptyCaps =
      ⟨capsIntName,
      [(FieldId.channels, (if c = 8 then GValue.vint 8 else GValue.vintRange c 8)),
      (FieldId.depth, (if d = 32 then GValue.vint 32 else GValue.vintRange d 32)),
      (FieldId.width, GValue.vlist [GScalar.gint 24, GScalar.gint 32]),
      (FieldId.signed, signedBothValue),
      (FieldId.endianness, endiannessBothValue),
      (FieldId.rate, GValue.vint r)]⟩ := rfl

set_option maxHeartbeats 1000000 in
theorem transform_int24_elem3 (d r c e : Int) (sg : Bool) :
    (gst_audio_convert_transform_caps (mkFixedIntCaps 24 d r c e sg)).getD 3 emptyCaps =
      ⟨capsFloatName,
      [(FieldId.endianness, GValue.vint 1234),
      (FieldId.width, GValue.vlist [GScalar.gint 32, GScalar.gint 64]),
      (FieldId.channels, (if c = 8 then GValue.vint 8 else GValue.vintRange c 8)),
      (FieldId.rate, GValue.vint r)]⟩ := rfl

set_option maxHeartbeats 1000000 in
theorem transform_int24_elem4 (d r c e : Int) (sg : Bool) :
    (gst_audio_convert_transform_caps (mkFixedIntCaps 24 d r c e sg)).getD 4 emptyCaps =
      ⟨capsIntName,
      [(FieldId.depth, GValue.vintRange 16 32),
      (FieldId.width, GValue.vlist [GScalar.gint 16, GScalar.gint 24, GScalar.gint 32]),
      (FieldId.channels, (if c = 8 then GValue.vint 8 else GValue.vintRange c 8)),
      (FieldId.signed, signedBothValue),
      (FieldId.endianness, endiannessBothValue),
      (FieldId.rate, GValue.vint r)]⟩ := rfl

set_option maxHeartbeats 1000000 in
theorem transform_int24_elem5 (d r c e : Int) (sg : Bool) :
    (gst_audio_convert_transform_caps (mkFixedIntCaps 24 d r c e sg)).getD 5 emptyCaps =
      ⟨capsIntName,
      [(FieldId.channels, GValue.vintRange 1 8),
      (FieldId.depth, GValue.vintRange 16 32),
      (FieldId.width, GValue.vlist [GScalar.gint 16, GScalar.gint 24, GScalar.gint 32]),
      (FieldId.signed, signedBothValue),
      (FieldId.endianness, endiannessBothValue),
      (FieldId.rate, GValue.vint r)]⟩ := rfl

set_option maxHeartbeats 1000000 in
theorem transform_int24_elem6 (d r c e : Int) (sg : Bool) :
    (gst_audio_convert_transform_caps (mkFixedIntCaps 24 d r c e sg)).getD 6 emptyCaps =
      ⟨capsFloatName,
      [(FieldId.endianness, GValue.vint 1234),
      (FieldId.width, GValue.vlist [GScalar.gint 32, GScalar.gint 64]),
      (FieldId.channels, GValue.vintRange 1 8),
      (FieldId.rate, GValue.vint r)]⟩ := rfl

set_option maxHeartbeats 1000000 in
theorem transform_int24_elem7 (d r c e : Int) (sg : Bool) :
    (gst_audio_convert_transform_caps (mkFixedIntCaps 24 d r c e sg)).getD 7 emptyCaps =
      ⟨capsIntName,
      [(FieldId.depth, GValue.vintRange 1 32),
      (FieldId.width, GValue.vlist [GScalar.gint 8, GScalar.gint 16, GScalar.gint 24, GScalar.gint 32]),
      (FieldId.channels, GValue.vintRange 1 8),
      (FieldId.signed, signedBothValue),
      (FieldId.endianness, endiannessBothValue),
      (FieldId.rate, GValue.vint r)]⟩ := rfl

set_option maxHeartbeats 1000000 in
theorem transform_int32_length (d r c e : Int) (sg : Bool) :
    (gst_audio_convert_transform_caps (mkFixedIntCaps 32 d r c e sg)).length = 8 := rfl

set_option maxHeartbeats 1000000 in
theorem transform_int32_elem0 (d r c e : Int) (sg : Bool) :
    (gst_audio_convert_transform_caps (mkFixedIntCaps 32 d r c e sg)).getD 0 emptyCaps =
      ⟨capsIntName,
      [(FieldId.signed, signedBothValue),
      (FieldId.endianness, endiannessBothValue),
      (FieldId.channels, GValue.vint c),
      (FieldId.rate, GValue.vint r),
      (FieldId.depth, GValue.vint d),
      (FieldId.width, GValue.vint 32)]⟩ := rfl

set_option maxHeartbeats 1000000 in
theorem transform_int32_elem1 (d r c e : Int) (sg : Bool) :
    (gst_audio_convert_transform_caps (mkFixedIntCaps 32 d r c e sg)).getD 1 emptyCaps =
      ⟨capsFloatName,
      [(FieldId.endianness, GValue.vint 1234),
      (FieldId.width, GValue.vlist [GScalar.gint 32, GScalar.gint 64]),
      (FieldId.channels, GValue.vint c),
      (FieldId.rate, GValue.vint r)]⟩ := rfl

set_option maxHeartbeats 1000000 in
theorem transform_int32_elem2 (d r c e : Int) (sg : Bool) :
    (gst_audio_convert_transform_caps (mkFixedIntCaps 32 d r c e sg)).getD 2 emptyCaps =
      ⟨capsIntName,
      [(FieldId.channels, (if c = 8 then GValue.vint 8 else GValue.vintRange c 8)),
      (FieldId.depth, (if d = 32 then GValue.vint 32 else GValue.vintRange d 32)),
      (FieldId.width, GValue.vint 32),
      (FieldId.signed, signedBothValue),
      (FieldId.endianness, endiannessBothValue),
      (FieldId.rate, GValue.vint r)]⟩ := rfl

set_option maxHeartbeats 1000000 in
theorem transform_int32_elem3 (d r c e : Int) (sg : Bool) :
    (gst_audio_convert_transform_caps (mkFixedIntCaps 32 d r c e sg)).getD 3 emptyCaps =
      ⟨capsFloatName,
      [(FieldId.endianness, GValue.vint 1234),
      (FieldId.width, GValue.vlist [GScalar.gint 32, GScalar.gint 64]),
      (FieldId.channels, (if c = 8 then GValue.vint 8 else GValue.vintRange c 8)),
      (FieldId.rate, GValue.vint r)]⟩ := rfl

set_option maxHeartbeats 1000000 in
theorem transform_int32_elem4 (d r c e : Int) (sg : Bool) :
    (gst_audio_convert_transform_caps (mkFixedIntCaps 32 d r c e sg)).getD 4 emptyCaps =
      ⟨capsIntName,
      [(FieldId.depth, GValue.vintRange 16 32),
      (FieldId.width, GValue.vlist [GScalar.gint 16, GScalar.gint 24, GScalar.gint 32]),
      (FieldId.channels, (if c = 8 then GValue.vint 8 else GValue.vintRange c 8)),
      (FieldId.signed, signedBothValue),
      (FieldId.endianness, endiannessBothValue),
      (FieldId.rate, GValue.vint r)]⟩ := rfl

set_option maxHeartbeats 1000000 in
theorem transform_int32_elem5 (d r c e : Int) (sg : Bool) :
    (gst_audio_convert_transform_caps (mkFixedIntCaps 32 d r c e sg)).getD 5 emptyCaps =
      ⟨capsIntName,
      [(FieldId.channels, GValue.vintRange 1 8),
      (FieldId.depth, GValue.vintRange 16 32),
      (FieldId.width, GValue.vlist [GScalar.gint 16, GScalar.gint 24, GScalar.gint 32]),
      (FieldId.signed, signedBothValue),
      (FieldId.endianness, endiannessBothValue),
      (FieldId.rate, GValue.vint r)]⟩ := rfl

set_option maxHeartbeats 1000000 in
theorem transform_int32_elem6 (d r c e : Int) (sg : Bool) :
    (gst_audio_convert_transform_caps (mkFixedIntCaps 32 d r c e sg)).getD 6 emptyCaps =
      ⟨capsFloatName,
      [(FieldId.endianness, GValue.vint 1234),
      (FieldId.width, GValue.vlist [GScalar.gint 32, GScalar.gint 64]),
      (FieldId.channels, GValue.vintRange 1 8),
      (FieldId.rate, GValue.vint r)]⟩ := rfl

set_option maxHeartbeats 1000000 in
theorem transform_int32_elem7 (d r c e : Int) (sg : Bool) :
    (gst_audio_convert_transform_caps (mkFixedIntCaps 32 d r c e sg)).getD 7 emptyCaps =
      ⟨capsIntName,
      [(FieldId.depth, GValue.vintRange 1 32),
      (FieldId.width, GValue.vlist [GScalar.gint 8, GScalar.gint 16, GScalar.gint 24, GScalar.gint 32]),
      (FieldId.channels, GValue.vintRange 1 8),
      (FieldId.signed, signedBothValue),
      (FieldId.endianness, endiannessBothValue),
      (FieldId.rate, GValue.vint r)]⟩ := rfl

set_option maxHeartbeats 1000000 in
theorem transform_float32_length (r c : Int) :
    (gst_audio_convert_transform_caps (mkFixedFloatCaps 32 r c)).length = 8 := rfl

set_option maxHeartbeats 1000000 in
theorem transform_float32_elem0 (r c : Int) :
    (gst_audio_convert_transform_caps (mkFixedFloatCaps 32 r c)).getD 0 emptyCaps =
      ⟨capsFloatName,
      [(FieldId.endianness, GValue.vint 1234),
      (FieldId.width, GValue.vlist [GScalar.gint 32, GScalar.gint 64]),
      (FieldId.channels, GValue.vint c),
      (FieldId.rate, GValue.vint r)]⟩ := rfl

set_option maxHeartbeats 1000000 in
theorem transform_float32_elem1 (r c : Int) :
    (gst_audio_convert_transform_caps (mkFixedFloatCaps 32 r c)).getD 1 emptyCaps =
      ⟨capsIntName,
      [(FieldId.signed, signedBothValue),
      (FieldId.endianness, endiannessBothValue),
      (FieldId.width, GValue.vlist [GScalar.gint 32, GScalar.gint 64]),
      (FieldId.channels, GValue.vint c),
      (FieldId.rate, GValue.vint r)]⟩ := rfl

set_option maxHeartbeats 1000000 in
theorem transform_float32_elem2 (r c : Int) :
    (gst_audio_convert_transform_caps (mkFixedFloatCaps 32 r c)).getD 2 emptyCaps =
      ⟨capsFloatName,
      [(FieldId.channels, (if c = 8 then GValue.vint 8 else GValue.vintRange c 8)),
      (FieldId.endianness, GValue.vint 1234),
      (FieldId.width, GValue.vlist [GScalar.gint 32, GScalar.gint 64]),
      (FieldId.rate, GValue.vint r)]⟩ := rfl

set_option maxHeartbeats 1000000 in
theorem transform_float32_elem3 (r c : Int) :
    (gst_audio_convert_transform_caps (mkFixedFloatCaps 32 r c)).getD 3 emptyCaps =
      ⟨capsIntName,
      [(FieldId.signed, signedBothValue),
      (FieldId.endianness, endiannessBothValue),
      (FieldId.channels, (if c = 8 then GValue.vint 8 else GValue.vintRange c 8)),
      (FieldId.width, GValue.vlist [GScalar.gint 32, GScalar.gint 64]),
      (FieldId.rate, GValue.vint r)]⟩ := rfl

set_option maxHeartbeats 1000000 in
theorem transform_float32_elem4 (r c : Int) :
    (gst_audio_convert_transform_caps (mkFixedFloatCaps 32 r c)).getD 4 emptyCaps =
      ⟨capsIntName,
      [(FieldId.signed, signedBothValue),
      (FieldId.endianness, endiannessBothValue),
      (FieldId.depth, GValue.vintRange 16 32),
      (FieldId.width, GValue.vlist [GScalar.gint 16, GScalar.gint 24, GScalar.gint 32]),
      (FieldId.channels, (if c = 8 then GValue.vint 8 else GValue.vintRange c 8)),
      (FieldId.rate, GValue.vint r)]⟩ := rfl

set_option maxHeartbeats 1000000 in
theorem transform_float32_elem5 (r c : Int) :
    (gst_audio_convert_transform_caps (mkFixedFloatCaps 32 r c)).getD 5 emptyCaps =
      ⟨capsFloatName,
      [(FieldId.channels, GValue.vintRange 1 8),
      (FieldId.endianness, GValue.vint 1234),
      (FieldId.width, GValue.vlist [GScalar.gint 32, GScalar.gint 64]),
      (FieldId.rate, GValue.vint r)]⟩ := rfl

set_option maxHeartbeats 1000000 in
theorem transform_float32_elem6 (r c : Int) :
    (gst_audio_convert_transform_caps (mkFixedFloatCaps 32 r c)).getD 6 emptyCaps =
      ⟨capsIntName,
      [(FieldId.signed, signedBothValue),
      (FieldId.endianness, endiannessBothValue),
      (FieldId.channels, GValue.vintRange 1 8),
      (FieldId.width, GValue.vlist [GScalar.gint 32, GScalar.gint 64]),
      (FieldId.rate, GValue.vint r)]⟩ := rfl

set_option maxHeartbeats 1000000 in
theorem transform_float32_elem7 (r c : Int) :
    (gst_audio_convert_transform_caps (mkFixedFloatCaps 32 r c)).getD 7 emptyCaps =
      ⟨capsIntName,
      [(FieldId.signed, signedBothValue),
      (FieldId.endianness, endiannessBothValue),
      (FieldId.depth, GValue.vintRange 1 32),
      (FieldId.width, GValue.vlist [GScalar.gint 8, GScalar.gint 16, GScalar.gint 24, GScalar.gint 32]),
      (FieldId.channels, GValue.vintRange 1 8),
      (FieldId.rate, GValue.vint r)]⟩ := rfl

set_option maxHeartbeats 1000000 in
theorem transform_float64_length (r c : Int) :
    (gst_audio_convert_transform_caps (mkFixedFloatCaps 64 r c)).length = 8 := rfl

set_option maxHeartbeats 1000000 in
theorem transform_float64_elem0 (r c : Int) :
    (gst_audio_convert_transform_caps (mkFixedFloatCaps 64 r c)).getD 0 emptyCaps =
      ⟨capsFloatName,
      [(FieldId.endianness, GValue.vint 1234),
      (FieldId.width, GValue.vlist [GScalar.gint 32, GScalar.gint 64]),
      (FieldId.channels, GValue.vint c),
      (FieldId.rate, GValue.vint r)]⟩ := rfl

set_option maxHeartbeats 1000000 in
theorem transform_float64_elem1 (r c : Int) :
    (gst_audio_convert_transform_caps (mkFixedFloatCaps 64 r c)).getD 1 emptyCaps =
      ⟨capsIntName,
      [(FieldId.signed, signedBothValue),
      (FieldId.endianness, endiannessBothValue),
      (FieldId.width, GValue.vlist [GScalar.gint 32, GScalar.gint 64]),
      (FieldId.channels, GValue.vint c),
      (FieldId.rate, GValue.vint r)]⟩ := rfl

set_option maxHeartbeats 1000000 in
theorem transform_float64_elem2 (r c : Int) :
    (gst_audio_convert_transform_caps (mkFixedFloatCaps 64 r c)).getD 2 emptyCaps =
      ⟨capsFloatName,
      [(FieldId.channels, (if c = 8 then GValue.vint 8 else GValue.vintRange c 8)),
      (FieldId.endianness, GValue.vint 1234),
      (FieldId.width, GValue.vlist [GScalar.gint 32, GScalar.gint 64]),
      (FieldId.rate, GValue.vint r)]⟩ := rfl

set_option maxHeartbeats 1000000 in
theorem transform_float64_elem3 (r c : Int) :
    (gst_audio_convert_transform_caps (mkFixedFloatCaps 64 r c)).getD 3 emptyCaps =
      ⟨capsIntName,
      [(FieldId.signed, signedBothValue),
      (FieldId.endianness, endiannessBothValue),
      (FieldId.channels, (if c = 8 then GValue.vint 8 else GValue.vintRange c 8)),
      (FieldId.width, GValue.vlist [GScalar.gint 32, GScalar.gint 64]),
      (FieldId.rate, GValue.vint r)]⟩ := rfl

set_option maxHeartbeats 1000000 in
theorem transform_float64_elem4 (r c : Int) :
    (gst_audio_convert_transform_caps (mkFixedFloatCaps 64 r c)).getD 4 emptyCaps =
      ⟨capsIntName,
      [(FieldId.signed, signedBothValue),
      (FieldId.endianness, endiannessBothValue),
      (FieldId.depth, GValue.vintRange 16 32),
      (FieldId.width, GValue.vlist [GScalar.gint 16, GScalar.gint 24, GScalar.gint 32]),
      (FieldId.channels, (if c = 8 then GValue.vint 8 else GValue.vintRange c 8)),
      (FieldId.rate, GValue.vint r)]⟩ := rfl

set_option maxHeartbeats 1000000 in
theorem transform_float64_elem5 (r c : Int) :
    (gst_audio_convert_transform_caps (mkFixedFloatCaps 64 r c)).getD 5 emptyCaps =
      ⟨capsFloatName,
      [(FieldId.channels, GValue.vintRange 1 8),
      (FieldId.endianness, GValue.vint 1234),
      (FieldId.width, GValue.vlist [GScalar.gint 32, GScalar.gint 64]),
      (FieldId.rate, GValue.vint r)]⟩ := rfl

set_option maxHeartbeats 1000000 in
theorem transform_float64_elem6 (r c : Int) :
    (gst_audio_convert_transform_caps (mkFixedFloatCaps 64 r c)).getD 6 emptyCaps =
      ⟨capsIntName,
      [(FieldId.signed, signedBothValue),
      (FieldId.endianness, endiannessBothValue),
      (FieldId.channels, GValue.vintRange 1 8),
      (FieldId.width, GValue.vlist [GScalar.gint 32, GScalar.gint 64]),
      (FieldId.rate, GValue.vint r)]⟩ := rfl

set_option maxHeartbeats 1000000 in
theorem transform_float64_elem7 (r c : Int) :
    (gst_audio_convert_transform_caps (mkFixedFloatCaps 64 r c)).getD 7 emptyCaps =
      ⟨capsIntName,
      [(FieldId.signed, signedBothValue),
      (FieldId.endianness, endiannessBothValue),
      (FieldId.depth, GValue.vintRange 1 32),
      (FieldId.width, GValue.vlist [GScalar.gint 8, GScalar.gint 16, GScalar.gint 24, GScalar.gint 32]),
      (FieldId.channels, GValue.vintRange 1 8),
      (FieldId.rate, GValue.vint r)]⟩ := rfl

/- ### Claim C1 -/

set_option maxHeartbeats 1000000 in
/-- C1: for every fixed input format, the template sequence of
gst_audio_convert_transform_caps begins with a same-family, same-channel
template varying only width/endianness/signedness (INTEGER: both
endiannesses and signedness values; FLOAT: widths 32/64, native
endianness, no depth/signed), and the second template is the same in the
opposite encoding family. -/
theorem claim_C1 (w d r c e wf rf cf : Int) (sg : Bool) :
    isLosslessIntTemplate
      ((gst_audio_convert_transform_caps (mkFixedIntCaps w d r c e sg)).getD 0 emptyCaps)
      w d r c ∧
    isLosslessFloatTemplate
      ((gst_audio_convert_transform_caps (mkFixedIntCaps w d r c e sg)).getD 1 emptyCaps)
      r c ∧
    isLosslessFloatTemplate
      ((gst_audio_convert_transform_caps (mkFixedFloatCaps wf rf cf)).getD 0 emptyCaps)
      rf cf ∧
    isIntOfFloatTemplate
      ((gst_audio_convert_transform_caps (mkFixedFloatCaps wf rf cf)).getD 1 emptyCaps)
      rf cf :=
  ⟨⟨rfl, rfl, rfl, rfl, rfl, rfl, rfl⟩,
   ⟨rfl, rfl, rfl, rfl, rfl, rfl, rfl⟩,
   ⟨rfl, rfl, rfl, rfl, rfl, rfl, rfl⟩,
   ⟨rfl, rfl, rfl, rfl, rfl, rfl, rfl⟩⟩
set_option maxHeartbeats 1000000 in
theorem c2_int8_part (d r c e : Int) (sg : Bool)
    (hd : 1 ≤ d ∧ d ≤ 8) (hc : 1 ≤ c ∧ c ≤ 8) :
    gst_audio_convert_transform_caps (mkFixedIntCaps 8 d r c e sg) ≠ [] ∧
    familyMonotone (gst_audio_convert_transform_caps (mkFixedIntCaps 8 d r c e sg))
      capsIntName 6 := by
  have hlen := transform_int8_length d r c e sg
  have e0 := transform_int8_elem0 d r c e sg
  have e1 := transform_int8_elem1 d r c e sg
  have e2 := transform_int8_elem2 d r c e sg
  have e3 := transform_int8_elem3 d r c e sg
  have e4 := transform_int8_elem4 d r c e sg
  have e5 := transform_int8_elem5 d r c e sg
  have e6 := transform_int8_elem6 d r c e sg
  refine ⟨fun hnil => by rw [hnil] at hlen; exact absurd hlen (by decide), ?_, ?_, ?_⟩
  · rw [e6]
  · intro i hi
    by_cases hlt : i < 7
    · exact absurd hi (by omega)
    · rw [List.getD_eq_default _ _ (by omega)]
      exact (by decide : emptyCaps.name ≠ capsIntName)
  · intro i hname
    by_cases hlt : i < 7
    · interval_cases i
      · rw [e0, e6]
        refine ⟨rfl, ?_⟩
        intro f hf
        simp only [fields_used, List.mem_cons, List.not_mem_nil, or_false] at hf
        rcases hf with rfl | rfl | rfl | rfl | rfl | rfl <;>
        first
          | exact trivial
          | exact scalarSubset_refl _
          | exact scalarSubset_vint _ _ (by decide)
          | exact scalarSubset_vint_range _ _ _ (by omega) (by omega)
          | exact scalarSubset_range_range _ _ _ _ (by omega) (by omega)
          | exact scalarSubset_depth_widen _ (by omega) (by omega)
          | exact scalarSubset_chan_widen _ (by omega) (by omega)
          | exact scalarSubset_vlist _ _ (by decide)
      · rw [e1] at hname
        simp [capsIntName, capsFloatName] at hname
      · rw [e2, e6]
        refine ⟨rfl, ?_⟩
        intro f hf
        simp only [fields_used, List.mem_cons, List.not_mem_nil, or_false] at hf
        rcases hf with rfl | rfl | rfl | rfl | rfl | rfl <;>
        first
          | exact trivial
          | exact scalarSubset_refl _
          | exact scalarSubset_vint _ _ (by decide)
          | exact scalarSubset_vint_range _ _ _ (by omega) (by omega)
          | exact scalarSubset_range_range _ _ _ _ (by omega) (by omega)
          | exact scalarSubset_depth_widen _ (by omega) (by omega)
          | exact scalarSubset_chan_widen _ (by omega) (by omega)
          | exact scalarSubset_vlist _ _ (by decide)
      · rw [e3] at hname
        simp [capsIntName, capsFloatName] at hname
      · rw [e4, e6]
        refine ⟨rfl, ?_⟩
        intro f hf
        simp only [fields_used, List.mem_cons, List.not_mem_nil, or_false] at hf
        rcases hf with rfl | rfl | rfl | rfl | rfl | rfl <;>
        first
          | exact trivial
          | exact scalarSubset_refl _
          | exact scalarSubset_vint _ _ (by decide)
          | exact scalarSubset_vint_range _ _ _ (by omega) (by omega)
          | exact scalarSubset_range_range _ _ _ _ (by omega) (by omega)
          | exact scalarSubset_depth_widen _ (by omega) (by omega)
          | exact scalarSubset_chan_widen _ (by omega) (by omega)
          | exact scalarSubset_vlist _ _ (by decide)
      · rw [e5] at hname
        simp [capsIntName, capsFloatName] at hname
      · rw [e6]
        refine ⟨rfl, ?_⟩
        intro f hf
        simp only [fields_used, List.mem_cons, List.not_mem_nil, or_false] at hf
        rcases hf with rfl | rfl | rfl | rfl | rfl | rfl <;>
        first
          | exact trivial
          | exact scalarSubset_refl _
          | exact scalarSubset_vint _ _ (by decide)
          | exact scalarSubset_vint_range _ _ _ (by omega) (by omega)
          | exact scalarSubset_range_range _ _ _ _ (by omega) (by omega)
          | exact scalarSubset_depth_widen _ (by omega) (by omega)
          | exact scalarSubset_chan_widen _ (by omega) (by omega)
          | exact scalarSubset_vlist _ _ (by decide)
    · rw [List.getD_eq_default _ _ (by omega)] at hname
      exact absurd hname (by decide)

set_option maxHeartbeats 1000000 in
theorem c2_int16_part (d r c e : Int) (sg : Bool)
    (hd : 1 ≤ d ∧ d ≤ 16) (hc : 1 ≤ c ∧ c ≤ 8) :
    gst_audio_convert_transform_caps (mkFixedIntCaps 16 d r c e sg) ≠ [] ∧
    familyMonotone (gst_audio_convert_transform_caps (mkFixedIntCaps 16 d r c e sg))
      capsIntName 6 := by
  have hlen := transform_int16_length d r c e sg
  have e0 := transform_int16_elem0 d r c e sg
  have e1 := transform_int16_elem1 d r c e sg
  have e2 := transform_int16_elem2 d r c e sg
  have e3 := transform_int16_elem3 d r c e sg
  have e4 := transform_int16_elem4 d r c e sg
  have e5 := transform_int16_elem5 d r c e sg
  have e6 := transform_int16_elem6 d r c e sg
  refine ⟨fun hnil => by rw [hnil] at hlen; exact absurd hlen (by decide), ?_, ?_, ?_⟩
  · rw [e6]
  · intro i hi
    by_cases hlt : i < 7
    · exact absurd hi (by omega)
    · rw [List.getD_eq_default _ _ (by omega)]
      exact (by decide : emptyCaps.name ≠ capsIntName)
  · intro i hname
    by_cases hlt : i < 7
    · interval_cases i
      · rw [e0, e6]
        refine ⟨rfl, ?_⟩
        intro f hf
        simp only [fields_used, List.mem_cons, List.not_mem_nil, or_false] at hf
        rcases hf with rfl | rfl | rfl | rfl | rfl | rfl <;>
        first
          | exact trivial
          | exact scalarSubset_refl _
          | exact scalarSubset_vint _ _ (by decide)
          | exact scalarSubset_vint_range _ _ _ (by omega) (by omega)
          | exact scalarSubset_range_range _ _ _ _ (by omega) (by omega)
          | exact scalarSubset_depth_widen _ (by omega) (by omega)
          | exact scalarSubset_chan_widen _ (by omega) (by omega)
          | exact scalarSubset_vlist _ _ (by decide)
      · rw [e1] at hname
        simp [capsIntName, capsFloatName] at hname
      · rw [e2, e6]
        refine ⟨rfl, ?_⟩
        intro f hf
        simp only [fields_used, List.mem_cons, List.not_mem_nil, or_false] at hf
        rcases hf with rfl | rfl | rfl | rfl | rfl | rfl <;>
        first
          | exact trivial
          | exact scalarSubset_refl _
          | exact scalarSubset_vint _ _ (by decide)
          | exact scalarSubset_vint_range _ _ _ (by omega) (by omega)
          | exact scalarSubset_range_range _ _ _ _ (by omega) (by omega)
          | exact scalarSubset_depth_widen _ (by omega) (by omega)
          | exact scalarSubset_chan_widen _ (by omega) (by omega)
          | exact scalarSubset_vlist _ _ (by decide)
      · rw [e3] at hname
        simp [capsIntName, capsFloatName] at hname
      · rw [e4, e6]
        refine ⟨rfl, ?_⟩
        intro f hf
        simp only [fields_used, List.mem_cons, List.not_mem_nil, or_false] at hf
        rcases hf with rfl | rfl | rfl | rfl | rfl | rfl <;>
        first
          | exact trivial
          | exact scalarSubset_refl _
          | exact scalarSubset_vint _ _ (by decide)
          | exact scalarSubset_vint_range _ _ _ (by omega) (by omega)
          | exact scalarSubset_range_range _ _ _ _ (by omega) (by omega)
          | exact scalarSubset_depth_widen _ (by omega) (by omega)
          | exact scalarSubset_chan_widen _ (by omega) (by omega)
          | exact scalarSubset_vlist _ _ (by decide)
      · rw [e5] at hname
        simp [capsIntName, capsFloatName] at hname
      · rw [e6]
        refine ⟨rfl, ?_⟩
        intro f hf
        simp only [fields_used, List.mem_cons, List.not_mem_nil, or_false] at hf
        rcases hf with rfl | rfl | rfl | rfl | rfl | rfl <;>
        first
          | exact trivial
          | exact scalarSubset_refl _
          | exact scalarSubset_vint _ _ (by decide)
          | exact scalarSubset_vint_range _ _ _ (by omega) (by omega)
          | exact scalarSubset_range_range _ _ _ _ (by omega) (by omega)
          | exact scalarSubset_depth_widen _ (by omega) (by omega)
          | exact scalarSubset_chan_widen _ (by omega) (by omega)
          | exact scalarSubset_vlist _ _ (by decide)
    · rw [List.getD_eq_default _ _ (by omega)] at hname
      exact absurd hname (by decide)

set_option maxHeartbeats 1000000 in
theorem c2_int24_part (d r c e : Int) (sg : Bool)
    (hd : 1 ≤ d ∧ d ≤ 24) (hc : 1 ≤ c ∧ c ≤ 8) :
    gst_audio_convert_transform_caps (mkFixedIntCaps 24 d r c e sg) ≠ [] ∧
    familyMonotone (gst_audio_convert_transform_caps (mkFixedIntCaps 24 d r c e sg))
      capsIntName 7 := by
  have hlen := transform_int24_length d r c e sg
  have e0 := transform_int24_elem0 d r c e sg
  have e1 := transform_int24_elem1 d r c e sg
  have e2 := transform_int24_elem2 d r c e sg
  have e3 := transform_int24_elem3 d r c e sg
  have e4 := transform_int24_elem4 d r c e sg
  have e5 := transform_int24_elem5 d r c e sg
  have e6 := transform_int24_elem6 d r c e sg
  have e7 := transform_int24_elem7 d r c e sg
  refine ⟨fun hnil => by rw [hnil] at hlen; exact absurd hlen (by decide), ?_, ?_, ?_⟩
  · rw [e7]
  · intro i hi
    by_cases hlt : i < 8
    · exact absurd hi (by omega)
    · rw [List.getD_eq_default _ _ (by omega)]
      exact (by decide : emptyCaps.name ≠ capsIntName)
  · intro i hname
    by_cases hlt : i < 8
    · interval_cases i
      · rw [e0, e7]
        refine ⟨rfl, ?_⟩
        intro f hf
        simp only [fields_used, List.mem_cons, List.not_mem_nil, or_false] at hf
        rcases hf with rfl | rfl | rfl | rfl | rfl | rfl <;>
        first
          | exact trivial
          | exact scalarSubset_refl _
          | exact scalarSubset_vint _ _ (by decide)
          | exact scalarSubset_vint_range _ _ _ (by omega) (by omega)
          | exact scalarSubset_range_range _ _ _ _ (by omega) (by omega)
          | exact scalarSubset_depth_widen _ (by omega) (by omega)
          | exact scalarSubset_chan_widen _ (by omega) (by omega)
          | exact scalarSubset_vlist _ _ (by decide)
      · rw [e1] at hname
        simp [capsIntName, capsFloatName] at hname
      · rw [e2, e7]
        refine ⟨rfl, ?_⟩
        intro f hf
        simp only [fields_used, List.mem_cons, List.not_mem_nil, or_false] at hf
        rcases hf with rfl | rfl | rfl | rfl | rfl | rfl <;>
        first
          | exact trivial
          | exact scalarSubset_refl _
          | exact scalarSubset_vint _ _ (by decide)
          | exact scalarSubset_vint_range _ _ _ (by omega) (by omega)
          | exact scalarSubset_range_range _ _ _ _ (by omega) (by omega)
          | exact scalarSubset_depth_widen _ (by omega) (by omega)
          | exact scalarSubset_chan_widen _ (by omega) (by omega)
          | exact scalarSubset_vlist _ _ (by decide)
      · rw [e3] at hname
        simp [capsIntName, capsFloatName] at hname
      · rw [e4, e7]
        refine ⟨rfl, ?_⟩
        intro f hf
        simp only [fields_used, List.mem_cons, List.not_mem_nil, or_false] at hf
        rcases hf with rfl | rfl | rfl | rfl | rfl | rfl <;>
        first
          | exact trivial
          | exact scalarSubset_refl _
          | exact scalarSubset_vint _ _ (by decide)
          | exact scalarSubset_vint_range _ _ _ (by omega) (by omega)
          | exact scalarSubset_range_range _ _ _ _ (by omega) (by omega)
          | exact scalarSubset_depth_widen _ (by omega) (by omega)
          | exact scalarSubset_chan_widen _ (by omega) (by omega)
          | exact scalarSubset_vlist _ _ (by decide)
      · rw [e5, e7]
        refine ⟨rfl, ?_⟩
        intro f hf
        simp only [fields_used, List.mem_cons, List.not_mem_nil, or_false] at hf
        rcases hf with rfl | rfl | rfl | rfl | rfl | rfl <;>
        first
          | exact trivial
          | exact scalarSubset_refl _
          | exact scalarSubset_vint _ _ (by decide)
          | exact scalarSubset_vint_range _ _ _ (by omega) (by omega)
          | exact scalarSubset_range_range _ _ _ _ (by omega) (by omega)
          | exact scalarSubset_depth_widen _ (by omega) (by omega)
          | exact scalarSubset_chan_widen _ (by omega) (by omega)
          | exact scalarSubset_vlist _ _ (by decide)
      · rw [e6] at hname
        simp [capsIntName, capsFloatName] at hname
      · rw [e7]
        refine ⟨rfl, ?_⟩
        intro f hf
        simp only [fields_used, List.mem_cons, List.not_mem_nil, or_false] at hf
        rcases hf with rfl | rfl | rfl | rfl | rfl | rfl <;>
        first
          | exact trivial
          | exact scalarSubset_refl _
          | exact scalarSubset_vint _ _ (by decide)
          | exact scalarSubset_vint_range _ _ _ (by omega) (by omega)
          | exact scalarSubset_range_range _ _ _ _ (by omega) (by omega)
          | exact scalarSubset_depth_widen _ (by omega) (by omega)
          | exact scalarSubset_chan_widen _ (by omega) (by omega)
          | exact scalarSubset_vlist _ _ (by decide)
    · rw [List.getD_eq_default _ _ (by omega)] at hname
      exact absurd hname (by decide)

set_option maxHeartbeats 1000000 in
theorem c2_int32_part (d r c e : Int) (sg : Bool)
    (hd : 1 ≤ d ∧ d ≤ 32) (hc : 1 ≤ c ∧ c ≤ 8) :
    gst_audio_convert_transform_caps (mkFixedIntCaps 32 d r c e sg) ≠ [] ∧
    familyMonotone (gst_audio_convert_transform_caps (mkFixedIntCaps 32 d r c e sg))
      capsIntName 7 := by
  have hlen := transform_int32_length d r c e sg
  have e0 := transform_int32_elem0 d r c e sg
  have e1 := transform_int32_elem1 d r c e sg
  have e2 := transform_int32_elem2 d r c e sg
  have e3 := transform_int32_elem3 d r c e sg
  have e4 := transform_int32_elem4 d r c e sg
  have e5 := transform_int32_elem5 d r c e sg
  have e6 := transform_int32_elem6 d r c e sg
  have e7 := transform_int32_elem7 d r c e sg
  refine ⟨fun hnil => by rw [hnil] at hlen; exact absurd hlen (by decide), ?_, ?_, ?_⟩
  · rw [e7]
  · intro i hi
    by_cases hlt : i < 8
    · exact absurd hi (by omega)
    · rw [List.getD_eq_default _ _ (by omega)]
      exact (by decide : emptyCaps.name ≠ capsIntName)
  · intro i hname
    by_cases hlt : i < 8
    · interval_cases i
      · rw [e0, e7]
        refine ⟨rfl, ?_⟩
        intro f hf
        simp only [fields_used, List.mem_cons, List.not_mem_nil, or_false] at hf
        rcases hf with rfl | rfl | rfl | rfl | rfl | rfl <;>
        first
          | exact trivial
          | exact scalarSubset_refl _
          | exact scalarSubset_vint _ _ (by decide)
          | exact scalarSubset_vint_range _ _ _ (by omega) (by omega)
          | exact scalarSubset_range_range _ _ _ _ (by omega) (by omega)
          | exact scalarSubset_depth_widen _ (by omega) (by omega)
          | exact scalarSubset_chan_widen _ (by omega) (by omega)
          | exact scalarSubset_vlist _ _ (by decide)
      · rw [e1] at hname
        simp [capsIntName, capsFloatName] at hname
      · rw [e2, e7]
        refine ⟨rfl, ?_⟩
        intro f hf
        simp only [fields_used, List.mem_cons, List.not_mem_nil, or_false] at hf
        rcases hf with rfl | rfl | rfl | rfl | rfl | rfl <;>
        first
          | exact trivial
          | exact scalarSubset_refl _
          | exact scalarSubset_vint _ _ (by decide)
          | exact scalarSubset_vint_range _ _ _ (by omega) (by omega)
          | exact scalarSubset_range_range _ _ _ _ (by omega) (by omega)
          | exact scalarSubset_depth_widen _ (by omega) (by omega)
          | exact scalarSubset_chan_widen _ (by omega) (by omega)
          | exact scalarSubset_vlist _ _ (by decide)
      · rw [e3] at hname
        simp [capsIntName, capsFloatName] at hname
      · rw [e4, e7]
        refine ⟨rfl, ?_⟩
        intro f hf
        simp only [fields_used, List.mem_cons, List.not_mem_nil, or_false] at hf
        rcases hf with rfl | rfl | rfl | rfl | rfl | rfl <;>
        first
          | exact trivial
          | exact scalarSubset_refl _
          | exact scalarSubset_vint _ _ (by decide)
          | exact scalarSubset_vint_range _ _ _ (by omega) (by omega)
          | exact scalarSubset_range_range _ _ _ _ (by omega) (by omega)
          | exact scalarSubset_depth_widen _ (by omega) (by omega)
          | exact scalarSubset_chan_widen _ (by omega) (by omega)
          | exact scalarSubset_vlist _ _ (by decide)
      · rw [e5, e7]
        refine ⟨rfl, ?_⟩
        intro f hf
        simp only [fields_used, List.mem_cons, List.not_mem_nil, or_false] at hf
        rcases hf with rfl | rfl | rfl | rfl | rfl | rfl <;>
        first
          | exact trivial
          | exact scalarSubset_refl _
          | exact scalarSubset_vint _ _ (by decide)
          | exact scalarSubset_vint_range _ _ _ (by omega) (by omega)
          | exact scalarSubset_range_range _ _ _ _ (by omega) (by omega)
          | exact scalarSubset_depth_widen _ (by omega) (by omega)
          | exact scalarSubset_chan_widen _ (by omega) (by omega)
          | exact scalarSubset_vlist _ _ (by decide)
      · rw [e6] at hname
        simp [capsIntName, capsFloatName] at hname
      · rw [e7]
        refine ⟨rfl, ?_⟩
        intro f hf
        simp only [fields_used, List.mem_cons, List.not_mem_nil, or_false] at hf
        rcases hf with rfl | rfl | rfl | rfl | rfl | rfl <;>
        first
          | exact trivial
          | exact scalarSubset_refl _
          | exact scalarSubset_vint _ _ (by decide)
          | exact scalarSubset_vint_range _ _ _ (by omega) (by omega)
          | exact scalarSubset_range_range _ _ _ _ (by omega) (by omega)
          | exact scalarSubset_depth_widen _ (by omega) (by omega)
          | exact scalarSubset_chan_widen _ (by omega) (by omega)
          | exact scalarSubset_vlist _ _ (by decide)
    · rw [List.getD_eq_default _ _ (by omega)] at hname
      exact absurd hname (by decide)

set_option maxHeartbeats 1000000 in
theorem c2_float32_part (r c : Int)
    (hc : 1 ≤ c ∧ c ≤ 8) :
    gst_audio_convert_transform_caps (mkFixedFloatCaps 32 r c) ≠ [] ∧
    familyMonotone (gst_audio_convert_transform_caps (mkFixedFloatCaps 32 r c))
      capsFloatName 5 := by
  have hlen := transform_float32_length r c
  have e0 := transform_float32_elem0 r c
  have e1 := transform_float32_elem1 r c
  have e2 := transform_float32_elem2 r c
  have e3 := transform_float32_elem3 r c
  have e4 := transform_float32_elem4 r c
  have e5 := transform_float32_elem5 r c
  have e6 := transform_float32_elem6 r c
  have e7 := transform_float32_elem7 r c
  refine ⟨fun hnil => by rw [hnil] at hlen; exact absurd hlen (by decide), ?_, ?_, ?_⟩
  · rw [e5]
  · intro i hi
    by_cases hlt : i < 8
    · interval_cases i
      · rw [e6]
        simp [capsIntName, capsFloatName]
      · rw [e7]
        simp [capsIntName, capsFloatName]
    · rw [List.getD_eq_default _ _ (by omega)]
      exact (by decide : emptyCaps.name ≠ capsFloatName)
  · intro i hname
    by_cases hlt : i < 8
    · interval_cases i
      · rw [e0, e5]
        refine ⟨rfl, ?_⟩
        intro f hf
        simp only [fields_used, List.mem_cons, List.not_mem_nil, or_false] at hf
        rcases hf with rfl | rfl | rfl | rfl | rfl | rfl <;>
        first
          | exact trivial
          | exact scalarSubset_refl _
          | exact scalarSubset_vint _ _ (by decide)
          | exact scalarSubset_vint_range _ _ _ (by omega) (by omega)
          | exact scalarSubset_range_range _ _ _ _ (by omega) (by omega)
          | exact scalarSubset_depth_widen _ (by omega) (by omega)
          | exact scalarSubset_chan_widen _ (by omega) (by omega)
          | exact scalarSubset_vlist _ _ (by decide)
      · rw [e1] at hname
        simp [capsIntName, capsFloatName] at hname
      · rw [e2, e5]
        refine ⟨rfl, ?_⟩
        intro f hf
        simp only [fields_used, List.mem_cons, List.not_mem_nil, or_false] at hf
        rcases hf with rfl | rfl | rfl | rfl | rfl | rfl <;>
        first
          | exact trivial
          | exact scalarSubset_refl _
          | exact scalarSubset_vint _ _ (by decide)
          | exact scalarSubset_vint_range _ _ _ (by omega) (by omega)
          | exact scalarSubset_range_range _ _ _ _ (by omega) (by omega)
          | exact scalarSubset_depth_widen _ (by omega) (by omega)
          | exact scalarSubset_chan_widen _ (by omega) (by omega)
          | exact scalarSubset_vlist _ _ (by decide)
      · rw [e3] at hname
        simp [capsIntName, capsFloatName] at hname
      · rw [e4] at hname
        simp [capsIntName, capsFloatName] at hname
      · rw [e5]
        refine ⟨rfl, ?_⟩
        intro f hf
        simp only [fields_used, List.mem_cons, List.not_mem_nil, or_false] at hf
        rcases hf with rfl | rfl | rfl | rfl | rfl | rfl <;>
        first
          | exact trivial
          | exact scalarSubset_refl _
          | exact scalarSubset_vint _ _ (by decide)
          | exact scalarSubset_vint_range _ _ _ (by omega) (by omega)
          | exact scalarSubset_range_range _ _ _ _ (by omega) (by omega)
          | exact scalarSubset_depth_widen _ (by omega) (by omega)
          | exact scalarSubset_chan_widen _ (by omega) (by omega)
          | exact scalarSubset_vlist _ _ (by decide)
      · rw [e6] at hname
        simp [capsIntName, capsFloatName] at hname
      · rw [e7] at hname
        simp [capsIntName, capsFloatName] at hname
    · rw [List.getD_eq_default _ _ (by omega)] at hname
      exact absurd hname (by decide)

set_option maxHeartbeats 1000000 in
theorem c2_float64_part (r c : Int)
    (hc : 1 ≤ c ∧ c ≤ 8) :
    gst_audio_convert_transform_caps (mkFixedFloatCaps 64 r c) ≠ [] ∧
    familyMonotone (gst_audio_convert_transform_caps (mkFixedFloatCaps 64 r c))
      capsFloatName 5 := by
  have hlen := transform_float64_length r c
  have e0 := transform_float64_elem0 r c
  have e1 := transform_float64_elem1 r c
  have e2 := transform_float64_elem2 r c
  have e3 := transform_float64_elem3 r c
  have e4 := transform_float64_elem4 r c
  have e5 := transform_float64_elem5 r c
  have e6 := transform_float64_elem6 r c
  have e7 := transform_float64_elem7 r c
  refine ⟨fun hnil => by rw [hnil] at hlen; exact absurd hlen (by decide), ?_, ?_, ?_⟩
  · rw [e5]
  · intro i hi
    by_cases hlt : i < 8
    · interval_cases i
      · rw [e6]
        simp [capsIntName, capsFloatName]
      · rw [e7]
        simp [capsIntName, capsFloatName]
    · rw [List.getD_eq_default _ _ (by omega)]
      exact (by decide : emptyCaps.name ≠ capsFloatName)
  · intro i hname
    by_cases hlt : i < 8
    · interval_cases i
      · rw [e0, e5]
        refine ⟨rfl, ?_⟩
        intro f hf
        simp only [fields_used, List.mem_cons, List.not_mem_nil, or_false] at hf
        rcases hf with rfl | rfl | rfl | rfl | rfl | rfl <;>
        first
          | exact trivial
          | exact scalarSubset_refl _
          | exact scalarSubset_vint _ _ (by decide)
          | exact scalarSubset_vint_range _ _ _ (by omega) (by omega)
          | exact scalarSubset_range_range _ _ _ _ (by omega) (by omega)
          | exact scalarSubset_depth_widen _ (by omega) (by omega)
          | exact scalarSubset_chan_widen _ (by omega) (by omega)
          | exact scalarSubset_vlist _ _ (by decide)
      · rw [e1] at hname
        simp [capsIntName, capsFloatName] at hname
      · rw [e2, e5]
        refine ⟨rfl, ?_⟩
        intro f hf
        simp only [fields_used, List.mem_cons, List.not_mem_nil, or_false] at hf
        rcases hf with rfl | rfl | rfl | rfl | rfl | rfl <;>
        first
          | exact trivial
          | exact scalarSubset_refl _
          | exact scalarSubset_vint _ _ (by decide)
          | exact scalarSubset_vint_range _ _ _ (by omega) (by omega)
          | exact scalarSubset_range_range _ _ _ _ (by omega) (by omega)
          | exact scalarSubset_depth_widen _ (by omega) (by omega)
          | exact scalarSubset_chan_widen _ (by omega) (by omega)
          | exact scalarSubset_vlist _ _ (by decide)
      · rw [e3] at hname
        simp [capsIntName, capsFloatName] at hname
      · rw [e4] at hname
        simp [capsIntName, capsFloatName] at hname
      · rw [e5]
        refine ⟨rfl, ?_⟩
        intro f hf
        simp only [fields_used, List.mem_cons, List.not_mem_nil, or_false] at hf
        rcases hf with rfl | rfl | rfl | rfl | rfl | rfl <;>
        first
          | exact trivial
          | exact scalarSubset_refl _
          | exact scalarSubset_vint _ _ (by decide)
          | exact scalarSubset_vint_range _ _ _ (by omega) (by omega)
          | exact scalarSubset_range_range _ _ _ _ (by omega) (by omega)
          | exact scalarSubset_depth_widen _ (by omega) (by omega)
          | exact scalarSubset_chan_widen _ (by omega) (by omega)
          | exact scalarSubset_vlist _ _ (by decide)
      · rw [e6] at hname
        simp [capsIntName, capsFloatName] at hname
      · rw [e7] at hname
        simp [capsIntName, capsFloatName] at hname
    · rw [List.getD_eq_default _ _ (by omega)] at hname
      exact absurd hname (by decide)

/- ### Claim C2 -/

set_option maxHeartbeats 1000000 in
/-- C2 (corrected): for every fixed descriptor the negotiation sequence is
non-empty, and monotonic loosening holds within the input's own encoding
family: the last template of the input's family admits every field value
any same-family template admits.  Across families it fails (see the
counterexample): FLOAT templates offer width 64, which the final INTEGER
template does not admit. -/
theorem claim_C2 (w d r c e wf rf cf : Int) (sg : Bool)
    (hw : w = 8 ∨ w = 16 ∨ w = 24 ∨ w = 32)
    (hd : 1 ≤ d ∧ d ≤ w) (hc : 1 ≤ c ∧ c ≤ 8)
    (hwf : wf = 32 ∨ wf = 64) (hcf : 1 ≤ cf ∧ cf ≤ 8) :
    (gst_audio_convert_transform_caps (mkFixedIntCaps w d r c e sg) ≠ [] ∧
     ∃ k, familyMonotone
       (gst_audio_convert_transform_caps (mkFixedIntCaps w d r c e sg))
       capsIntName k) ∧
    (gst_audio_convert_transform_caps (mkFixedFloatCaps wf rf cf) ≠ [] ∧
     ∃ k, familyMonotone
       (gst_audio_convert_transform_caps (mkFixedFloatCaps wf rf cf))
       capsFloatName k) := by
  constructor
  · rcases hw with rfl | rfl | rfl | rfl
    · exact ⟨(c2_int8_part d r c e sg hd hc).1, 6,
        (c2_int8_part d r c e sg hd hc).2⟩
    · exact ⟨(c2_int16_part d r c e sg hd hc).1, 6,
        (c2_int16_part d r c e sg hd hc).2⟩
    · exact ⟨(c2_int24_part d r c e sg hd hc).1, 7,
        (c2_int24_part d r c e sg hd hc).2⟩
    · exact ⟨(c2_int32_part d r c e sg hd hc).1, 7,
        (c2_int32_part d r c e sg hd hc).2⟩
  · rcases hwf with rfl | rfl
    · exact ⟨(c2_float32_part rf cf hcf).1, 5,
        (c2_float32_part rf cf hcf).2⟩
    · exact ⟨(c2_float64_part rf cf hcf).1, 5,
        (c2_float64_part rf cf hcf).2⟩

/-- Witness for C2 at a concrete fixed 16-bit stereo integer input and a
concrete 32-bit float input. -/
theorem claim_C2_witness :
    (((16 : Int) = 8 ∨ (16 : Int) = 16 ∨ (16 : Int) = 24 ∨ (16 : Int) = 32) ∧
     ((1 : Int) ≤ 16 ∧ (16 : Int) ≤ 16) ∧ ((1 : Int) ≤ 2 ∧ (2 : Int) ≤ 8) ∧
     ((32 : Int) = 32 ∨ (32 : Int) = 64) ∧ ((1 : Int) ≤ 6 ∧ (6 : Int) ≤ 8)) ∧
    ((gst_audio_convert_transform_caps
        (mkFixedIntCaps 16 16 44100 2 1234 true) ≠ [] ∧
      ∃ k, familyMonotone
        (gst_audio_convert_transform_caps (mkFixedIntCaps 16 16 44100 2 1234 true))
        capsIntName k) ∧
     (gst_audio_convert_transform_caps (mkFixedFloatCaps 32 48000 6) ≠ [] ∧
      ∃ k, familyMonotone
        (gst_audio_convert_transform_caps (mkFixedFloatCaps 32 48000 6))
        capsFloatName k)) :=
  ⟨⟨by decide, by decide, by decide, by decide, by decide⟩,
   claim_C2 16 16 44100 2 1234 32 48000 6 true (by decide) (by decide)
     (by decide) (by decide) (by decide)⟩

set_option maxHeartbeats 1000000 in
/-- C2 counterexample to the claim as stated: for the fixed input
INTEGER/width 16/depth 16/44100 Hz/stereo, the second template (the FLOAT
offer, which admits width 64) is not contained in the last template of the
sequence (the INTEGER fallback, widths 8/16/24/32): the last template's
value sets are not a superset of every earlier template's. -/
theorem claim_C2_counterexample :
    ¬ ∀ i, i < (gst_audio_convert_transform_caps
        (mkFixedIntCaps 16 16 44100 2 1234 true)).length →
      rangesLooser
        ((gst_audio_convert_transform_caps
          (mkFixedIntCaps 16 16 44100 2 1234 true)).getD i emptyCaps)
        (lastTemplate (gst_audio_convert_transform_caps
          (mkFixedIntCaps 16 16 44100 2 1234 true))) := by
  intro h
  have hlen := transform_int16_length 16 44100 2 1234 true
  have hL : lastTemplate (gst_audio_convert_transform_caps
      (mkFixedIntCaps 16 16 44100 2 1234 true)) =
      (gst_audio_convert_transform_caps
        (mkFixedIntCaps 16 16 44100 2 1234 true)).getD 6 emptyCaps := by
    rw [lastTemplate, hlen]
  have h1 := h 1 (by rw [hlen]; omega)
  have hw := h1 FieldId.width (by simp [fields_used])
  rw [transform_int16_elem1 16 44100 2 1234 true, hL,
    transform_int16_elem6 16 44100 2 1234 true] at hw
  have h64 := hw (GScalar.gint 64) (by decide)
  exact absurd h64 (by decide)

/- ### Fixation lemmas (claim C3) -/

theorem closerInt_irrefl (t x : Int) : closerInt t x x = false := by
  simp [closerInt]

theorem closerInt_asymm (t a b : Int) (h : closerInt t a b = true) :
    closerInt t b a = false := by
  simp only [closerInt, Bool.or_eq_true, Bool.and_eq_true,
    decide_eq_true_eq] at h
  simp only [closerInt, Bool.or_eq_false_iff, Bool.and_eq_false_iff,
    decide_eq_false_iff_not]
  exact ⟨by omega, by omega⟩

theorem closerInt_trans (t a b c : Int) (h1 : closerInt t a b = true)
    (h2 : closerInt t b c = true) : closerInt t a c = true := by
  simp only [closerInt, Bool.or_eq_true, Bool.and_eq_true,
    decide_eq_true_eq] at h1 h2 ⊢
  omega

theorem closerInt_shift (t m x b : Int) (h1 : closerInt t m x = false)
    (h2 : x = b ∨ closerInt t b x = true) : closerInt t m b = false := by
  simp only [closerInt, Bool.or_eq_false_iff, Bool.and_eq_false_iff,
    decide_eq_false_iff_not] at h1 ⊢
  rcases h2 with rfl | h2
  · exact h1
  · simp only [closerInt, Bool.or_eq_true, Bool.and_eq_true,
      decide_eq_true_eq] at h2
    exact ⟨by omega, by omega⟩

theorem nearest_fold_spec (t : Int) (l : List GScalar) :
    ∀ acc b, l.foldl (nearStep t) acc = some b →
      (acc = some b ∨ GScalar.gint b ∈ l) ∧
      (∀ x, acc = some x → x = b ∨ closerInt t b x = true) ∧
      (∀ n, GScalar.gint n ∈ l → closerInt t n b = false) := by
  induction l with
  | nil =>
    intro acc b h
    simp only [List.foldl_nil] at h
    subst h
    refine ⟨Or.inl rfl, fun x hx => Or.inl (Option.some.inj hx).symm, ?_⟩
    intro n hn
    exact absurd hn (List.not_mem_nil _)
  | cons a rest ih =>
    intro acc b h
    simp only [List.foldl_cons] at h
    cases a with
    | gbool bv =>
      have hstep : nearStep t acc (GScalar.gbool bv) = acc := by
        cases acc <;> rfl
      rw [hstep] at h
      obtain ⟨hmem, hacc, hrest⟩ := ih acc b h
      refine ⟨?_, hacc, ?_⟩
      · exact hmem.imp id (List.mem_cons_of_mem _)
      · intro n hn
        rcases List.mem_cons.mp hn with h' | h'
        · exact absurd h' (by simp)
        · exact hrest n h'
    | gint m =>
      cases acc with
      | none =>
        rw [show nearStep t none (GScalar.gint m) = some m from rfl] at h
        obtain ⟨hmem, hacc, hrest⟩ := ih (some m) b h
        have hyb : m = b ∨ closerInt t b m = true := by
          rcases hmem with h' | h'
          · exact Or.inl (Option.some.inj h')
          · exact hacc m rfl
        refine ⟨?_, ?_, ?_⟩
        · rcases hmem with h' | h'
          · exact Or.inr ((Option.some.inj h') ▸ List.mem_cons_self _ _)
          · exact Or.inr (List.mem_cons_of_mem _ h')
        · intro x hx
          exact absurd hx (by simp)
        · intro n hn
          rcases List.mem_cons.mp hn with h' | h'
          · have hnm : n = m := by injection h'
            subst hnm
            rcases hyb with rfl | hb
            · exact closerInt_irrefl t _
            · exact closerInt_asymm t b n hb
          · exact hrest n h'
      | some x =>
        by_cases hcl : closerInt t m x = true
        · rw [show nearStep t (some x) (GScalar.gint m) =
              (if closerInt t m x then some m else some x) from rfl,
            if_pos hcl] at h
          obtain ⟨hmem, hacc, hrest⟩ := ih (some m) b h
          have hyb : m = b ∨ closerInt t b m = true := by
            rcases hmem with h' | h'
            · exact Or.inl (Option.some.inj h')
            · exact hacc m rfl
          refine ⟨?_, ?_, ?_⟩
          · rcases hmem with h' | h'
            · exact Or.inr ((Option.some.inj h') ▸ List.mem_cons_self _ _)
            · exact Or.inr (List.mem_cons_of_mem _ h')
          · intro y hy
            have hyx : y = x := (Option.some.inj hy).symm
            subst hyx
            rcases hyb with rfl | hb
            · exact Or.inr hcl
            · exact Or.inr (closerInt_trans t b m y hb hcl)
          · intro n hn
            rcases List.mem_cons.mp hn with h' | h'
            · have hnm : n = m := by injection h'
              subst hnm
              rcases hyb with rfl | hb
              · exact closerInt_irrefl t _
              · exact closerInt_asymm t b n hb
            · exact hrest n h'
        · rw [show nearStep t (some x) (GScalar.gint m) =
              (if closerInt t m x then some m else some x) from rfl,
            if_neg hcl] at h
          obtain ⟨hmem, hacc, hrest⟩ := ih (some x) b h
          have hxb : x = b ∨ closerInt t b x = true := by
            rcases hmem with h' | h'
            · exact Or.inl (Option.some.inj h')
            · exact hacc x rfl
          refine ⟨?_, ?_, ?_⟩
          · rcases hmem with h' | h'
            · exact Or.inl h'
            · exact Or.inr (List.mem_cons_of_mem _ h')
          · intro y hy
            have hyx : y = x := (Option.some.inj hy).symm
            subst hyx
            exact hxb
          · intro n hn
            rcases List.mem_cons.mp hn with h' | h'
            · have hnm : n = m := by injection h'
              subst hnm
              exact closerInt_shift t n x b (by simpa using hcl) hxb
            · exact hrest n h'

theorem getValue_fixateFieldNearest_ne (s : GstStructure) (f g : FieldId)
    (t : Int) (h : g ≠ f) :
    getValue (fixateFieldNearest s f t) g = getValue s g := by
  unfold fixateFieldNearest
  cases getValue s f with
  | none => rfl
  | some v => exact getValue_setField_ne s f g _ h

theorem getValue_fixateFieldNearest_same (s : GstStructure) (f : FieldId)
    (t : Int) (v : GValue) (h : getValue s f = some v) :
    getValue (fixateFieldNearest s f t) f = some (fixateIntValue v t) := by
  unfold fixateFieldNearest
  rw [h]
  exact getValue_setField_same s f _

theorem getValue_fixateFieldBool_ne (s : GstStructure) (f g : FieldId)
    (t : Bool) (h : g ≠ f) :
    getValue (fixateFieldBool s f t) g = getValue s g := by
  unfold fixateFieldBool
  cases getValue s f with
  | none => rfl
  | some v => exact getValue_setField_ne s f g _ h

theorem getValue_fixateFieldBool_same (s : GstStructure) (f : FieldId)
    (t : Bool) (v : GValue) (h : getValue s f = some v) :
    getValue (fixateFieldBool s f t) f = some (fixateBoolValue v t) := by
  unfold fixateFieldBool
  rw [h]
  exact getValue_setField_same s f _

theorem getValue_fixStepInt_ne (ins outs : GstStructure) (f g : FieldId)
    (h : g ≠ f) :
    getValue (fixStepInt ins outs f) g = getValue outs g := by
  unfold fixStepInt
  cases getInt ins f with
  | none => rfl
  | some t => exact getValue_fixateFieldNearest_ne outs f g t h

theorem getValue_fixStepInt_same (ins outs : GstStructure) (f : FieldId)
    (t : Int) (v : GValue) (hins : getInt ins f = some t)
    (houts : getValue outs f = some v) :
    getValue (fixStepInt ins outs f) f = some (fixateIntValue v t) := by
  unfold fixStepInt
  rw [hins]
  exact getValue_fixateFieldNearest_same outs f t v houts

theorem getValue_fixStepDepth_ne (ins outs : GstStructure) (g : FieldId)
    (h : g ≠ .depth) :
    getValue (fixStepDepth ins outs) g = getValue outs g := by
  unfold fixStepDepth
  cases getInt ins .depth with
  | some t => exact getValue_fixateFieldNearest_ne outs .depth g t h
  | none =>
    cases getInt ins .width with
    | some t => exact getValue_fixateFieldNearest_ne outs .depth g t h
    | none => rfl

theorem getValue_fixStepSigned_ne (ins outs : GstStructure) (g : FieldId)
    (h : g ≠ .signed) :
    getValue (fixStepSigned ins outs) g = getValue outs g := by
  unfold fixStepSigned
  cases getBool ins .signed with
  | none => rfl
  | some t => exact getValue_fixateFieldBool_ne outs .signed g t h


theorem fixateIntValue_nearest (v : GValue) (t b : Int)
    (hv : rangeValid v = true) (h : fixateIntValue v t = .vint b) :
    gvMem v (.gint b) = true ∧
    ∀ n, gvMem v (.gint n) = true → nearestPick t b n := by
  cases v with
  | vint n0 =>
    have hb : n0 = b := by
      simpa [fixateIntValue] using h
    subst hb
    refine ⟨by simp [gvMem], ?_⟩
    intro n hn
    simp [gvMem] at hn
    subst hn
    exact Or.inr ⟨rfl, le_refl _⟩
  | vbool b0 => simp [fixateIntValue] at h
  | vintRange lo hi =>
    simp only [rangeValid, decide_eq_true_eq] at hv
    have hb : min hi (max lo t) = b := by
      simpa [fixateIntValue] using h
    refine ⟨by simp [gvMem]; omega, ?_⟩
    intro n hn
    simp only [gvMem, Bool.and_eq_true, decide_eq_true_eq] at hn
    simp only [nearestPick]
    omega
  | vlist l =>
    simp only [fixateIntValue] at h
    cases hnear : nearestIntInList l t with
    | none => rw [hnear] at h; exact absurd h (by simp)
    | some b' =>
      rw [hnear] at h
      have hb : b' = b := by injection h
      subst hb
      obtain ⟨hmem, _, hrest⟩ :=
        nearest_fold_spec t l none b' hnear
      have hmem' : GScalar.gint b' ∈ l := by
        rcases hmem with h' | h'
        · exact absurd h' (by simp)
        · exact h'
      refine ⟨by simpa [gvMem] using hmem', ?_⟩
      intro n hn
      have hn' : GScalar.gint n ∈ l := by simpa [gvMem] using hn
      have hcl := hrest n hn'
      simp only [closerInt, Bool.or_eq_false_iff, Bool.and_eq_false_iff,
        decide_eq_false_iff_not] at hcl
      simp only [nearestPick]
      omega

set_option maxHeartbeats 1000000 in
/-- C3: fixation resolves each still-free field of the flexible side toward
the fixed side's value, nearest first with ties toward the smaller value,
in the order channels, rate, endianness, width, depth, signed, with depth
falling back to the fixed side's width. -/
theorem claim_C3 (ins outs : GstStructure) (w : Int)
    (hinw : getInt ins .width = some w) : C3Statement ins outs w := by
  unfold C3Statement
  refine ⟨?_, ?_, ?_, ?_, ?_, ?_, ?_, ?_⟩
  · intro t v hins houts
    unfold gst_audio_convert_fixate_caps
    rw [getValue_fixStepSigned_ne _ _ _ (by decide),
      getValue_fixStepDepth_ne _ _ _ (by decide),
      getValue_fixStepInt_ne _ _ _ _ (by decide),
      getValue_fixStepInt_ne _ _ _ _ (by decide),
      getValue_fixStepInt_ne _ _ _ _ (by decide)]
    exact getValue_fixStepInt_same ins outs .channels t v hins houts
  · intro t v hins houts
    unfold gst_audio_convert_fixate_caps
    rw [getValue_fixStepSigned_ne _ _ _ (by decide),
      getValue_fixStepDepth_ne _ _ _ (by decide),
      getValue_fixStepInt_ne _ _ _ _ (by decide),
      getValue_fixStepInt_ne _ _ _ _ (by decide)]
    exact getValue_fixStepInt_same ins _ .rate t v hins
      (by rw [getValue_fixStepInt_ne _ _ _ _ (by decide)]; exact houts)
  · intro t v hins houts
    unfold gst_audio_convert_fixate_caps
    rw [getValue_fixStepSigned_ne _ _ _ (by decide),
      getValue_fixStepDepth_ne _ _ _ (by decide),
      getValue_fixStepInt_ne _ _ _ _ (by decide)]
    exact getValue_fixStepInt_same ins _ .endianness t v hins
      (by rw [getValue_fixStepInt_ne _ _ _ _ (by decide),
          getValue_fixStepInt_ne _ _ _ _ (by decide)]; exact houts)
  · intro v houts
    unfold gst_audio_convert_fixate_caps
    rw [getValue_fixStepSigned_ne _ _ _ (by decide),
      getValue_fixStepDepth_ne _ _ _ (by decide)]
    exact getValue_fixStepInt_same ins _ .width w v hinw
      (by rw [getValue_fixStepInt_ne _ _ _ _ (by decide),
          getValue_fixStepInt_ne _ _ _ _ (by decide),
          getValue_fixStepInt_ne _ _ _ _ (by decide)]; exact houts)
  · intro t v hins houts
    unfold gst_audio_convert_fixate_caps
    rw [getValue_fixStepSigned_ne _ _ _ (by decide)]
    unfold fixStepDepth
    rw [hins]
    exact getValue_fixateFieldNearest_same _ .depth t v
      (by rw [getValue_fixStepInt_ne _ _ _ _ (by decide),
          getValue_fixStepInt_ne _ _ _ _ (by decide),
          getValue_fixStepInt_ne _ _ _ _ (by decide),
          getValue_fixStepInt_ne _ _ _ _ (by decide)]; exact houts)
  · intro v hnone houts
    unfold gst_audio_convert_fixate_caps
    rw [getValue_fixStepSigned_ne _ _ _ (by decide)]
    unfold fixStepDepth
    rw [hnone, hinw]
    exact getValue_fixateFieldNearest_same _ .depth w v
      (by rw [getValue_fixStepInt_ne _ _ _ _ (by decide),
          getValue_fixStepInt_ne _ _ _ _ (by decide),
          getValue_fixStepInt_ne _ _ _ _ (by decide),
          getValue_fixStepInt_ne _ _ _ _ (by decide)]; exact houts)
  · intro t v hins houts
    unfold gst_audio_convert_fixate_caps
    unfold fixStepSigned
    rw [hins]
    exact getValue_fixateFieldBool_same _ .signed t v
      (by rw [getValue_fixStepDepth_ne _ _ _ (by decide),
          getValue_fixStepInt_ne _ _ _ _ (by decide),
          getValue_fixStepInt_ne _ _ _ _ (by decide),
          getValue_fixStepInt_ne _ _ _ _ (by decide),
          getValue_fixStepInt_ne _ _ _ _ (by decide)]; exact houts)
  · intro v t b hv h
    exact fixateIntValue_nearest v t b hv h

/-- Witness for C3: a concrete fixed 16-bit integer input against a fully
ranged integer template. -/
theorem claim_C3_witness :
    getInt (mkFixedIntCaps 16 16 44100 2 1234 true) .width = some 16 ∧
    C3Statement (mkFixedIntCaps 16 16 44100 2 1234 true)
      ⟨capsIntName,
        [(FieldId.width, .vlist [.gint 8, .gint 16, .gint 24, .gint 32]),
         (FieldId.depth, .vintRange 1 32),
         (FieldId.rate, .vintRange 1 100000),
         (FieldId.channels, .vintRange 1 8),
         (FieldId.endianness, endiannessBothValue),
         (FieldId.signed, signedBothValue)]⟩ 16 :=
  ⟨rfl, claim_C3 (mkFixedIntCaps 16 16 44100 2 1234 true) _ 16 rfl⟩

/- ### Claims C4, C6, C7, C8, C9 -/

set_option maxHeartbeats 2000000 in
/-- C4: parsing a capability structure fails exactly when a required
field is absent or, for INTEGER, when depth > width; required fields are
channels, width and rate, with signed and depth additionally required for
INTEGER and endianness required only when width is not 8.  Channel
positions are derived from the channel count (spec section 4.1). -/
theorem claim_C4 (isInt : Bool) (w d r c e : Option Int) (sg : Option Bool)
    (hc : ∀ x, c = some x → 1 ≤ x) :
    (gst_audio_convert_parse_caps (mkCapsOpt isInt w d r c e sg)).isSome = true ↔
      (c.isSome = true ∧ w.isSome = true ∧ r.isSome = true ∧
       (isInt = true →
         sg.isSome = true ∧ d.isSome = true ∧
         (w ≠ some 8 → e.isSome = true) ∧
         (∀ dv wv, d = some dv → w = some wv → dv ≤ wv))) := by
  cases isInt <;> cases w <;> cases d <;> cases r <;> cases c <;> cases e <;> cases sg <;>
    simp_all [gst_audio_convert_parse_caps, mkCapsOpt,
      gst_audio_get_channel_positions, structureIsFixed, getInt, getBool,
      getValue, lookupField, valueIsFixed, capsIntName, capsFloatName]
  all_goals try omega
  all_goals try (intro h1; omega)
  all_goals ((repeat' split) <;> simp_all [ite_eq_iff] <;> omega)

/-- C8: a successfully parsed descriptor stores
unit_size = width * channels / 8 bytes per frame, and get_unit_size
reports exactly this value. -/
theorem claim_C8 (s : GstStructure) (fmt : AudioConvertFmt)
    (h : gst_audio_convert_parse_caps s = some fmt) :
    fmt.unit_size = fmt.width * fmt.channels / 8 ∧
    gst_audio_convert_get_unit_size s = some fmt.unit_size := by
  refine ⟨?_, by simp [gst_audio_convert_get_unit_size, h]⟩
  unfold gst_audio_convert_parse_caps at h
  repeat' split at h
  all_goals simp at h
  all_goals (subst h; rfl)

/-- Witness for C4: a complete fixed integer caps structure parses. -/
theorem claim_C4_witness :
    (∀ x : Int, (some 2 : Option Int) = some x → 1 ≤ x) ∧
    ((gst_audio_convert_parse_caps
        (mkCapsOpt true (some 16) (some 16) (some 44100) (some 2)
          (some 1234) (some true))).isSome = true ↔
      ((some 2 : Option Int).isSome = true ∧
       (some 16 : Option Int).isSome = true ∧
       (some 44100 : Option Int).isSome = true ∧
       (true = true →
         (some true : Option Bool).isSome = true ∧
         (some 16 : Option Int).isSome = true ∧
         ((some 16 : Option Int) ≠ some 8 →
           (some 1234 : Option Int).isSome = true) ∧
         (∀ dv wv, (some 16 : Option Int) = some dv →
           (some 16 : Option Int) = some wv → dv ≤ wv)))) :=
  ⟨fun x hx => by cases hx; norm_num,
   claim_C4 true (some 16) (some 16) (some 44100) (some 2) (some 1234)
     (some true) (fun x hx => by cases hx; norm_num)⟩

/-- Witness for C8: parsing the canonical fixed 16-bit stereo integer caps
yields unit size 4 = 16 * 2 / 8, and get_unit_size reports it. -/
theorem claim_C8_witness :
    gst_audio_convert_parse_caps (mkFixedIntCaps 16 16 44100 2 1234 true) =
      some ⟨true, 1234, true, 16, 16, 44100, 2, defaultPositions 2, 4⟩ ∧
    ((⟨true, 1234, true, 16, 16, 44100, 2, defaultPositions 2, 4⟩ :
        AudioConvertFmt).unit_size =
      (⟨true, 1234, true, 16, 16, 44100, 2, defaultPositions 2, 4⟩ :
        AudioConvertFmt).width *
      (⟨true, 1234, true, 16, 16, 44100, 2, defaultPositions 2, 4⟩ :
        AudioConvertFmt).channels / 8 ∧
     gst_audio_convert_get_unit_size (mkFixedIntCaps 16 16 44100 2 1234 true) =
       some (⟨true, 1234, true, 16, 16, 44100, 2, defaultPositions 2, 4⟩ :
         AudioConvertFmt).unit_size) :=
  ⟨rfl, claim_C8 (mkFixedIntCaps 16 16 44100 2 1234 true) _ rfl⟩

/- Transform stage claims -/

/-- C6: the transform stage computes sampleCount = size / unitSize,
queries the byte sizes for that count, invokes convert only when the
source holds at least inputBytes and the destination at least
outputBytes, and otherwise fails with a flow error without converting. -/
theorem claim_C6 (ctx : AudioConvertCtx) (inbuf outbuf : GstBuffer)
    (hu : 0 < ctx.inFmt.unit_size) (hin : 0 ≤ inbuf.size)
    (hout : 0 ≤ outbuf.size) :
    (gst_audio_convert_transform ctx inbuf outbuf).samples =
      inbuf.size / ctx.inFmt.unit_size ∧
    audio_convert_get_sizes ctx (inbuf.size / ctx.inFmt.unit_size) =
      some ((inbuf.size / ctx.inFmt.unit_size) * ctx.inFmt.unit_size,
        (inbuf.size / ctx.inFmt.unit_size) * ctx.outFmt.unit_size) ∧
    ((gst_audio_convert_transform ctx inbuf outbuf).convertCalled = true →
      (inbuf.size / ctx.inFmt.unit_size) * ctx.inFmt.unit_size ≤ inbuf.size ∧
      (inbuf.size / ctx.inFmt.unit_size) * ctx.outFmt.unit_size ≤
        outbuf.size) ∧
    ((inbuf.size < (inbuf.size / ctx.inFmt.unit_size) * ctx.inFmt.unit_size ∨
      outbuf.size <
        (inbuf.size / ctx.inFmt.unit_size) * ctx.outFmt.unit_size) →
      (gst_audio_convert_transform ctx inbuf outbuf).ret = .error ∧
      (gst_audio_convert_transform ctx inbuf outbuf).convertCalled = false) := by
  have hle : inbuf.size / ctx.inFmt.unit_size * ctx.inFmt.unit_size ≤
      inbuf.size := Int.ediv_mul_le inbuf.size (by omega)
  refine ⟨?_, rfl, ?_, ?_⟩
  · simp only [gst_audio_convert_transform, audio_convert_get_sizes,
      audio_convert_convert]
    split_ifs <;> rfl
  · simp only [gst_audio_convert_transform, audio_convert_get_sizes,
      audio_convert_convert]
    split_ifs with h1 h2 h3 <;> simp_all <;> omega
  · intro hlt
    simp only [gst_audio_convert_transform, audio_convert_get_sizes,
      audio_convert_convert]
    split_ifs with h1 h2 h3
    · exfalso
      rcases h1 with hz | hz
      · have hs : inbuf.size / ctx.inFmt.unit_size = 0 := by
          rcases mul_eq_zero.mp hz with h | h
          · exact h
          · omega
        rw [hs] at hlt
        simp only [zero_mul] at hlt
        omega
      · rcases hlt with h | h
        · omega
        · rw [hz] at h
          omega
    · exact ⟨rfl, rfl⟩
    · exact ⟨rfl, rfl⟩
    · exfalso
      rcases hlt with h | h
      · exact h2 h
      · exact h3 h

/-- C7: a zero-sample input passes through successfully without invoking
convert (zero-length output for a zero-length destination), and every
successful conversion sets the destination buffer size to the computed
output byte count. -/
theorem claim_C7 (ctx : AudioConvertCtx) (inbuf outbuf : GstBuffer) :
    (inbuf.size / ctx.inFmt.unit_size = 0 →
      (gst_audio_convert_transform ctx inbuf outbuf).ret = .ok ∧
      (gst_audio_convert_transform ctx inbuf outbuf).convertCalled = false ∧
      (gst_audio_convert_transform ctx inbuf outbuf).outSize = outbuf.size) ∧
    (inbuf.size = 0 → outbuf.size = 0 →
      (gst_audio_convert_transform ctx inbuf outbuf).ret = .ok ∧
      (gst_audio_convert_transform ctx inbuf outbuf).outSize = 0) ∧
    ((gst_audio_convert_transform ctx inbuf outbuf).ret = .ok ∧
      (gst_audio_convert_transform ctx inbuf outbuf).convertCalled = true →
      (gst_audio_convert_transform ctx inbuf outbuf).outSize =
        (inbuf.size / ctx.inFmt.unit_size) * ctx.outFmt.unit_size) := by
  simp only [gst_audio_convert_transform, audio_convert_get_sizes,
    audio_convert_convert]
  refine ⟨?_, ?_, ?_⟩
  · intro hs
    rw [hs]
    simp
  · intro hz ho
    rw [hz]
    simp [Int.zero_ediv, ho]
  · split_ifs with h1 h2 h3 <;> simp_all

/-- C9: a source buffer whose size is not a multiple of the input unit
size is silently truncated: the sample count is the floor of
size / unitSize, the trailing bytes are ignored, and the call still
succeeds. -/
theorem claim_C9 (ctx : AudioConvertCtx) (inbuf outbuf : GstBuffer)
    (hu : 0 < ctx.inFmt.unit_size) (hin : 0 ≤ inbuf.size)
    (hrem : inbuf.size % ctx.inFmt.unit_size ≠ 0)
    (hout : (inbuf.size / ctx.inFmt.unit_size) * ctx.outFmt.unit_size ≤
      outbuf.size) :
    (gst_audio_convert_transform ctx inbuf outbuf).samples =
      inbuf.size / ctx.inFmt.unit_size ∧
    (inbuf.size / ctx.inFmt.unit_size) * ctx.inFmt.unit_size < inbuf.size ∧
    (gst_audio_convert_transform ctx inbuf outbuf).ret = .ok := by
  have hdm := Int.ediv_add_emod inbuf.size ctx.inFmt.unit_size
  have hmn := Int.emod_nonneg inbuf.size (by omega : ctx.inFmt.unit_size ≠ 0)
  have hml := Int.emod_lt_of_pos inbuf.size hu
  have hcomm : inbuf.size / ctx.inFmt.unit_size * ctx.inFmt.unit_size =
      ctx.inFmt.unit_size * (inbuf.size / ctx.inFmt.unit_size) :=
    mul_comm _ _
  have hstrict :
      (inbuf.size / ctx.inFmt.unit_size) * ctx.inFmt.unit_size < inbuf.size := by
    omega
  refine ⟨?_, hstrict, ?_⟩
  · simp only [gst_audio_convert_transform, audio_convert_get_sizes,
      audio_convert_convert]
    split_ifs <;> rfl
  · simp only [gst_audio_convert_transform, audio_convert_get_sizes,
      audio_convert_convert]
    split_ifs with h1 h2 h3
    · rfl
    · exact absurd h2 (by omega)
    · exact absurd h3 (by omega)
    · rfl

/-- Witness for C6. -/
theorem claim_C6_witness :
    ((0 : Int) < sampleCtx.inFmt.unit_size ∧
     (0 : Int) ≤ (⟨4000⟩ : GstBuffer).size ∧
     (0 : Int) ≤ (⟨8000⟩ : GstBuffer).size) ∧
    ((gst_audio_convert_transform sampleCtx ⟨4000⟩ ⟨8000⟩).samples =
      (⟨4000⟩ : GstBuffer).size / sampleCtx.inFmt.unit_size ∧
    audio_convert_get_sizes sampleCtx
        ((⟨4000⟩ : GstBuffer).size / sampleCtx.inFmt.unit_size) =
      some (((⟨4000⟩ : GstBuffer).size / sampleCtx.inFmt.unit_size) *
          sampleCtx.inFmt.unit_size,
        ((⟨4000⟩ : GstBuffer).size / sampleCtx.inFmt.unit_size) *
          sampleCtx.outFmt.unit_size) ∧
    ((gst_audio_convert_transform sampleCtx ⟨4000⟩ ⟨8000⟩).convertCalled =
        true →
      ((⟨4000⟩ : GstBuffer).size / sampleCtx.inFmt.unit_size) *
          sampleCtx.inFmt.unit_size ≤ (⟨4000⟩ : GstBuffer).size ∧
      ((⟨4000⟩ : GstBuffer).size / sampleCtx.inFmt.unit_size) *
          sampleCtx.outFmt.unit_size ≤ (⟨8000⟩ : GstBuffer).size) ∧
    (((⟨4000⟩ : GstBuffer).size <
        ((⟨4000⟩ : GstBuffer).size / sampleCtx.inFmt.unit_size) *
          sampleCtx.inFmt.unit_size ∨
      (⟨8000⟩ : GstBuffer).size <
        ((⟨4000⟩ : GstBuffer).size / sampleCtx.inFmt.unit_size) *
          sampleCtx.outFmt.unit_size) →
      (gst_audio_convert_transform sampleCtx ⟨4000⟩ ⟨8000⟩).ret = .error ∧
      (gst_audio_convert_transform sampleCtx ⟨4000⟩ ⟨8000⟩).convertCalled =
        false)) :=
  ⟨⟨by decide, by decide, by decide⟩,
   claim_C6 sampleCtx ⟨4000⟩ ⟨8000⟩ (by decide) (by decide) (by decide)⟩

/-- Witness for C7: a zero-sample buffer passes through with flow OK. -/
theorem claim_C7_witness :
    (⟨0⟩ : GstBuffer).size / sampleCtx.inFmt.unit_size = 0 ∧
    ((gst_audio_convert_transform sampleCtx ⟨0⟩ ⟨0⟩).ret = .ok ∧
     (gst_audio_convert_transform sampleCtx ⟨0⟩ ⟨0⟩).convertCalled = false ∧
     (gst_audio_convert_transform sampleCtx ⟨0⟩ ⟨0⟩).outSize =
       (⟨0⟩ : GstBuffer).size) :=
  ⟨by decide, (claim_C7 sampleCtx ⟨0⟩ ⟨0⟩).1 (by decide)⟩

/-- Witness for C9: 4002 bytes at unit size 4 is 1000 samples with two
trailing bytes ignored. -/
theorem claim_C9_witness :
    ((0 : Int) < sampleCtx.inFmt.unit_size ∧
     (0 : Int) ≤ (⟨4002⟩ : GstBuffer).size ∧
     (⟨4002⟩ : GstBuffer).size % sampleCtx.inFmt.unit_size ≠ 0 ∧
     ((⟨4002⟩ : GstBuffer).size / sampleCtx.inFmt.unit_size) *
       sampleCtx.outFmt.unit_size ≤ (⟨8000⟩ : GstBuffer).size) ∧
    ((gst_audio_convert_transform sampleCtx ⟨4002⟩ ⟨8000⟩).samples =
      (⟨4002⟩ : GstBuffer).size / sampleCtx.inFmt.unit_size ∧
     ((⟨4002⟩ : GstBuffer).size / sampleCtx.inFmt.unit_size) *
       sampleCtx.inFmt.unit_size < (⟨4002⟩ : GstBuffer).size ∧
     (gst_audio_convert_transform sampleCtx ⟨4002⟩ ⟨8000⟩).ret = .ok) :=
  ⟨⟨by decide, by decide, by decide, by decide⟩,
   claim_C9 sampleCtx ⟨4002⟩ ⟨8000⟩ (by decide) (by decide) (by decide)
     (by decide)⟩

/- ### Claims C5 and C10 -/

/- ### Lemmas for claims C5 and C10 -/

theorem name_set_structure_widths (s : GstStructure) (mn mx : Int) :
    (set_structure_widths s mn mx).name = s.name := rfl

theorem name_make_lossless_changes (s : GstStructure) (isfloat : Bool) :
    (make_lossless_changes s isfloat).name = s.name := by
  cases isfloat <;> rfl

theorem name_widen_width_depth (structure' s : GstStructure) (isfloat : Bool) :
    (widen_width_depth structure' s isfloat).name = s.name := by
  unfold widen_width_depth
  split
  · rfl
  · cases getInt structure' .width <;> cases getInt structure' .depth <;> rfl

theorem name_widen_channels (structure' s : GstStructure) :
    (widen_channels structure' s).name = s.name := by
  unfold widen_channels
  cases getInt structure' .channels <;> rfl

theorem name_default_depth (s : GstStructure) (isfloat : Bool) :
    (default_depth s isfloat).name = s.name := by
  unfold default_depth
  split
  · rfl
  · split <;> rfl

theorem name_foldl_copy (structure' : GstStructure) (l : List FieldId)
    (acc : GstStructure) :
    (l.foldl
      (fun acc f =>
        match getValue structure' f with
        | some v => setField acc f v
        | none => acc) acc).name = acc.name := by
  induction l generalizing acc with
  | nil => rfl
  | cons f rest ih =>
    simp only [List.foldl_cons]
    rw [ih]
    cases getValue structure' f <;> rfl

theorem name_filteredStructure (structure' : GstStructure) :
    (filteredStructure structure').name = structure'.name := by
  unfold filteredStructure
  rw [name_foldl_copy]

/-- The four FLOAT-template field facts of claim C10. -/
theorem mlcFloat_props (s : GstStructure) :
    getValue (make_lossless_changes s true) .width =
      some (.vlist [.gint 32, .gint 64]) ∧
    getValue (make_lossless_changes s true) .endianness =
      some (.vint G_BYTE_ORDER) ∧
    getValue (make_lossless_changes s true) .depth = none ∧
    getValue (make_lossless_changes s true) .signed = none := by
  have hx : make_lossless_changes s true =
      setField
        (setField (removeField (removeField s .depth) .signed) .width
          (.vlist [.gint 32, .gint 64]))
        .endianness (.vint G_BYTE_ORDER) := rfl
  rw [hx]
  refine ⟨?_, ?_, ?_, ?_⟩
  · rw [getValue_setField_ne _ _ _ _ (by decide), getValue_setField_same]
  · rw [getValue_setField_same]
  · rw [getValue_setField_ne _ _ _ _ (by decide),
      getValue_setField_ne _ _ _ _ (by decide),
      getValue_removeField_ne _ _ _ (by decide),
      getValue_removeField_same]
  · rw [getValue_setField_ne _ _ _ _ (by decide),
      getValue_setField_ne _ _ _ _ (by decide),
      getValue_removeField_same]

/-- Setting the channels field preserves the FLOAT-template field facts. -/
theorem floatProps_setField_channels (s : GstStructure) (v : GValue)
    (h : getValue s .width = some (.vlist [.gint 32, .gint 64]) ∧
      getValue s .endianness = some (.vint G_BYTE_ORDER) ∧
      getValue s .depth = none ∧ getValue s .signed = none) :
    getValue (setField s .channels v) .width =
      some (.vlist [.gint 32, .gint 64]) ∧
    getValue (setField s .channels v) .endianness =
      some (.vint G_BYTE_ORDER) ∧
    getValue (setField s .channels v) .depth = none ∧
    getValue (setField s .channels v) .signed = none := by
  obtain ⟨h1, h2, h3, h4⟩ := h
  refine ⟨?_, ?_, ?_, ?_⟩ <;>
    rw [getValue_setField_ne _ _ _ _ (by decide)] <;> assumption

theorem floatProps_widen_channels (structure' s : GstStructure)
    (h : getValue s .width = some (.vlist [.gint 32, .gint 64]) ∧
      getValue s .endianness = some (.vint G_BYTE_ORDER) ∧
      getValue s .depth = none ∧ getValue s .signed = none) :
    getValue (widen_channels structure' s) .width =
      some (.vlist [.gint 32, .gint 64]) ∧
    getValue (widen_channels structure' s) .endianness =
      some (.vint G_BYTE_ORDER) ∧
    getValue (widen_channels structure' s) .depth = none ∧
    getValue (widen_channels structure' s) .signed = none := by
  unfold widen_channels
  cases getInt structure' .channels with
  | none => exact h
  | some c => exact floatProps_setField_channels s _ h

set_option maxHeartbeats 1000000 in
/-- C5: the depth-reduction negotiation step is emitted only when the
fixed side has no width or its width exceeds 16; its offered widths and
depths never go below 16 bits; and it is emitted only as an INTEGER
template, never as a FLOAT one.  The first conjunct ties the step to
gst_audio_convert_transform_caps. -/
theorem claim_C5 :
    (∀ structure' : GstStructure,
      gst_audio_convert_transform_caps structure' =
        (transform_caps_head structure' (structure'.name == capsFloatName)).1 ++
        (reduce_depth_step structure'
          (transform_caps_head structure' (structure'.name == capsFloatName)).2
          (structure'.name == capsFloatName)).1 ++
        transform_caps_tail
          (reduce_depth_step structure'
            (transform_caps_head structure' (structure'.name == capsFloatName)).2
            (structure'.name == capsFloatName)).2
          (structure'.name == capsFloatName)) ∧
    (∀ (structure' s : GstStructure) (isfloat : Bool) (w : Int),
      getInt structure' .width = some w → w ≤ 16 →
      (reduce_depth_step structure' s isfloat).1 = []) ∧
    (∀ (structure' s : GstStructure) (isfloat : Bool),
      isfloat = (s.name == capsFloatName) →
      ∀ t ∈ (reduce_depth_step structure' s isfloat).1,
        t.name ≠ capsFloatName ∧
        (∃ vw, getValue t .width = some vw ∧
          ∀ n, gvMem vw (.gint n) = true → 16 ≤ n) ∧
        (∃ vd, getValue t .depth = some vd ∧
          ∀ n, gvMem vd (.gint n) = true → 16 ≤ n)) := by
  have hwidths : widthsUpTo 16 32 = [16, 24, 32] := by decide
  have hwval : ∀ s : GstStructure,
      getValue (setField (set_structure_widths s 16 32) .depth
        (.vintRange 16 32)) .width =
        some (.vlist [.gint 16, .gint 24, .gint 32]) := by
    intro s
    rw [getValue_setField_ne _ _ _ _ (by decide)]
    unfold set_structure_widths
    rw [getValue_setField_same, if_neg (by norm_num), hwidths]
    decide
  have hdval : ∀ s : GstStructure,
      getValue (setField (set_structure_widths s 16 32) .depth
        (.vintRange 16 32)) .depth = some (.vintRange 16 32) := by
    intro s
    rw [getValue_setField_same]
  have hwbound : ∀ n : Int,
      gvMem (.vlist [.gint 16, .gint 24, .gint 32]) (.gint n) = true →
        16 ≤ n := by
    intro n h
    simp [gvMem] at h
    rcases h with rfl | rfl | rfl <;> norm_num
  have hdbound : ∀ n : Int,
      gvMem (.vintRange 16 32) (.gint n) = true → 16 ≤ n := by
    intro n h
    simp [gvMem] at h
    omega
  refine ⟨fun structure' => rfl, ?_, ?_⟩
  · intro st s isfloat w hw hle
    unfold reduce_depth_step
    rw [hw]
    have : ¬ (16 < w) := by omega
    simp [this]
  · intro st s isfloat hfeq t ht
    unfold reduce_depth_step at ht
    split at ht
    · cases isfloat with
      | true =>
        simp only [if_true, append_with_other_format, List.nil_append,
          List.mem_singleton] at ht
        subst ht
        refine ⟨?_, ?_, ?_⟩
        · rw [name_make_lossless_changes, name_setName]
          decide
        · refine ⟨_, ?_, hwbound⟩
          have hx : ∀ u : GstStructure, make_lossless_changes u false =
              setField (setField u .endianness endiannessBothValue) .signed
                signedBothValue := fun u => rfl
          rw [hx, getValue_setField_ne _ _ _ _ (by decide),
            getValue_setField_ne _ _ _ _ (by decide), getValue_setName]
          exact hwval s
        · refine ⟨_, ?_, hdbound⟩
          have hx : ∀ u : GstStructure, make_lossless_changes u false =
              setField (setField u .endianness endiannessBothValue) .signed
                signedBothValue := fun u => rfl
          rw [hx, getValue_setField_ne _ _ _ _ (by decide),
            getValue_setField_ne _ _ _ _ (by decide), getValue_setName]
          exact hdval s
      | false =>
        rw [if_neg (by simp)] at ht
        have hteq := List.mem_singleton.mp ht
        subst hteq
        refine ⟨?_, ⟨_, hwval s, hwbound⟩, ⟨_, hdval s, hdbound⟩⟩
        rw [name_setField, name_set_structure_widths]
        intro hc
        rw [hc] at hfeq
        simp at hfeq
    · exact absurd ht (List.not_mem_nil t)

theorem reduce_depth_mem_true (st s : GstStructure) :
    ∀ t ∈ (reduce_depth_step st s true).1,
      t = make_lossless_changes
        (setName (setField (set_structure_widths s 16 32) .depth
          (.vintRange 16 32)) capsIntName) false := by
  intro t ht
  unfold reduce_depth_step at ht
  split at ht
  · simp only [if_true, append_with_other_format, List.nil_append,
      List.mem_singleton] at ht
    exact ht
  · exact absurd ht (List.not_mem_nil t)

theorem reduce_depth_mem_false (st s : GstStructure) :
    ∀ t ∈ (reduce_depth_step st s false).1,
      t = setField (set_structure_widths s 16 32) .depth (.vintRange 16 32) := by
  intro t ht
  unfold reduce_depth_step at ht
  split at ht
  · rw [if_neg (by simp)] at ht
    exact List.mem_singleton.mp ht
  · exact absurd ht (List.not_mem_nil t)

theorem reduce_depth_snd_true (st s : GstStructure) :
    (reduce_depth_step st s true).2 = s := by
  unfold reduce_depth_step
  split <;> rfl

theorem name_reduce_depth_snd (st s : GstStructure) (f : Bool) :
    (reduce_depth_step st s f).2.name = s.name := by
  unfold reduce_depth_step
  split
  · cases f
    · rw [if_neg (by simp)]
      exact congrArg _ rfl |>.trans (name_setField _ _ _) |>.trans
        (name_set_structure_widths _ _ _)
    · rfl
  · rfl

set_option maxHeartbeats 2000000 in
/-- C10: every FLOAT-family template produced by transform_caps, for any
input structure, offers exactly widths 32 and 64, fixes endianness to the
native byte order, and carries no depth or signed field. -/
theorem claim_C10 (structure' : GstStructure) :
    ∀ t ∈ gst_audio_convert_transform_caps structure',
      t.name = capsFloatName →
      getValue t .width = some (.vlist [.gint 32, .gint 64]) ∧
      getValue t .endianness = some (.vint G_BYTE_ORDER) ∧
      getValue t .depth = none ∧
      getValue t .signed = none := by
  intro t ht hname
  by_cases hf : structure'.name = capsFloatName
  · have hb : (structure'.name == capsFloatName) = true := by simp [hf]
    unfold gst_audio_convert_transform_caps at ht
    rw [hb] at ht
    unfold transform_caps_head transform_caps_tail at ht
    simp only [append_with_other_format, if_true, List.mem_append,
      List.mem_singleton, List.nil_append, List.mem_cons,
      List.not_mem_nil, or_false, or_assoc] at ht
    rcases ht with rfl | rfl | rfl | rfl | hrd | rfl | rfl | rfl
    · exact mlcFloat_props _
    · exfalso
      rw [name_make_lossless_changes, name_setName] at hname
      exact absurd hname (by decide)
    · exact floatProps_widen_channels _ _ (mlcFloat_props _)
    · exfalso
      rw [name_make_lossless_changes, name_setName] at hname
      exact absurd hname (by decide)
    · exfalso
      have := reduce_depth_mem_true _ _ t hrd
      subst this
      rw [name_make_lossless_changes, name_setName] at hname
      exact absurd hname (by decide)
    · rw [reduce_depth_snd_true]
      exact floatProps_setField_channels _ _
        (floatProps_widen_channels _ _ (mlcFloat_props _))
    · exfalso
      rw [name_make_lossless_changes, name_setName] at hname
      exact absurd hname (by decide)
    · exfalso
      rw [name_make_lossless_changes, name_setName] at hname
      exact absurd hname (by decide)
  · have hb : (structure'.name == capsFloatName) = false := by simp [hf]
    unfold gst_audio_convert_transform_caps at ht
    rw [hb] at ht
    unfold transform_caps_head transform_caps_tail at ht
    simp only [append_with_other_format, if_false, List.mem_append,
      List.mem_singleton, List.nil_append, List.mem_cons,
      List.not_mem_nil, or_false, Bool.false_eq_true, or_assoc] at ht
    rcases ht with rfl | rfl | rfl | rfl | hrd | rfl | rfl | rfl
    · exfalso
      rw [name_make_lossless_changes, name_default_depth,
        name_filteredStructure] at hname
      exact hf hname
    · exact mlcFloat_props _
    · exfalso
      rw [name_widen_channels, name_widen_width_depth,
        name_make_lossless_changes, name_default_depth,
        name_filteredStructure] at hname
      exact hf hname
    · exact mlcFloat_props _
    · exfalso
      have := reduce_depth_mem_false _ _ t hrd
      subst this
      rw [name_setField, name_set_structure_widths, name_widen_channels,
        name_widen_width_depth, name_make_lossless_changes,
        name_default_depth, name_filteredStructure] at hname
      exact hf hname
    · exfalso
      rw [name_setField, name_reduce_depth_snd, name_widen_channels,
        name_widen_width_depth, name_make_lossless_changes,
        name_default_depth, name_filteredStructure] at hname
      exact hf hname
    · exact mlcFloat_props _
    · exfalso
      rw [name_setField, name_set_structure_widths, name_setField,
        name_reduce_depth_snd, name_widen_channels, name_widen_width_depth,
        name_make_lossless_changes, name_default_depth,
        name_filteredStructure] at hname
      exact hf hname

/-- Witness for C5: for a fixed 16-bit width input the depth-reduction step
emits nothing. -/
theorem claim_C5_witness :
    (getInt (mkFixedIntCaps 16 16 44100 2 1234 true) .width = some 16 ∧
     (16 : Int) ≤ 16) ∧
    (reduce_depth_step (mkFixedIntCaps 16 16 44100 2 1234 true) emptyCaps
      false).1 = [] :=
  ⟨⟨rfl, by norm_num⟩,
   claim_C5.2.1 (mkFixedIntCaps 16 16 44100 2 1234 true) emptyCaps false 16
     rfl (by norm_num)⟩

/-- Witness for C10: the FLOAT offer of a fixed 16-bit integer input has
widths 32/64, native endianness and no depth/signed field. -/
theorem claim_C10_witness :
    (make_lossless_changes
        (setName
          (make_lossless_changes
            (default_depth
              (filteredStructure (mkFixedIntCaps 16 16 44100 2 1234 true))
              false)
            false)
          capsFloatName)
        true ∈
      gst_audio_convert_transform_caps (mkFixedIntCaps 16 16 44100 2 1234 true) ∧
     (make_lossless_changes
        (setName
          (make_lossless_changes
            (default_depth
              (filteredStructure (mkFixedIntCaps 16 16 44100 2 1234 true))
              false)
            false)
          capsFloatName)
        true).name = capsFloatName) ∧
    (getValue
        (make_lossless_changes
          (setName
            (make_lossless_changes
              (default_depth
                (filteredStructure (mkFixedIntCaps 16 16 44100 2 1234 true))
                false)
              false)
            capsFloatName)
          true) .width = some (.vlist [.gint 32, .gint 64]) ∧
     getValue
        (make_lossless_changes
          (setName
            (make_lossless_changes
              (default_depth
                (filteredStructure (mkFixedIntCaps 16 16 44100 2 1234 true))
                false)
              false)
            capsFloatName)
          true) .endianness = some (.vint G_BYTE_ORDER) ∧
     getValue
        (make_lossless_changes
          (setName
            (make_lossless_changes
              (default_depth
                (filteredStructure (mkFixedIntCaps 16 16 44100 2 1234 true))
                false)
              false)
            capsFloatName)
          true) .depth = none ∧
     getValue
        (make_lossless_changes
          (setName
            (make_lossless_changes
              (default_depth
                (filteredStructure (mkFixedIntCaps 16 16 44100 2 1234 true))
                false)
              false)
            capsFloatName)
          true) .signed = none) :=
  ⟨⟨by decide, rfl⟩,
   claim_C10 (mkFixedIntCaps 16 16 44100 2 1234 true) _ (by decide) rfl⟩
